import Mathlib

/-!
# espweather: the push sequencer of `firmware/user/push.c`

A shallow embedding of the push state machine of the ESP8266 weather sensor
(`pushSensorData`, `pushTimerCb`, `httpPush`, `httpPushCb`, `mqttPush`,
`mqttPushCb`, `mqttPublish`, `mqttPublishCb`, `mqttErrorCb`, `pushTimeout`,
`pushTimeoutCb`, `sleepmode`) and theorems about it.

Conventions of the embedding.

* The four file-scope variables `pushState`, `pushErrorDelay`, `pushRetries`,
  `pushRedirect` form the record `PushCycle`.  The three `uint8_t` counters are
  natural numbers and every C operation on them is reduced modulo 256.
  `pushState` is a C enum (an `int`-sized value): `++pushState` is `+ 1`.
* A C string is the list of its characters before the terminating NUL.
* Calls into other modules (status LED, sensors, HTTP transport, MQTT engine,
  deep sleep) are recorded, newest first, in `World.log`, and so are the
  entries into `httpPush` and `mqttPush`.  Diagnostic output (`os_printf`) and
  the registration of the MQTT callbacks are not recorded.  Values the code
  reads from those modules are supplied by the caller of each function.
* The two timers are one-shot (`os_timer_arm(..., 0)`): each is a flag which
  the arming function sets and the delivery of its expiry clears.
* `push.h` is not part of the sources at hand: its macros are the fields of
  `Consts`, and the enum values are those of the order the specification
  gives for `PushState`.
-/

namespace EspWeather

/-! ## Constants -/

/-- Macros of `push.h` used by `push.c`. -/
structure Consts where
  PUSH_CHECK_INTERVAL_MSEC : Nat
  PUSH_TIMEOUT_SEC : Nat
  PUSH_RETRIES_MAX : Nat
  PUSH_ERROR_DELAY : Nat
  PUSH_REDIRECT_MAX : Nat
  deriving DecidableEq, Repr

/-- Modelled from the spec: the enum `push_states` of `push.h` (missing), in
the order the specification lists the states; Idle. -/
def PUSH_IDLE : Nat := 0
/-- Modelled from the spec: enum `push_states` of `push.h` (missing); Init. -/
def PUSH_INIT : Nat := 1
/-- Modelled from the spec: enum `push_states` of `push.h` (missing); ReadSensors. -/
def PUSH_READ : Nat := 2
/-- Modelled from the spec: enum `push_states` of `push.h` (missing); AwaitNetwork. -/
def PUSH_IPWAIT : Nat := 3
/-- Modelled from the spec: enum `push_states` of `push.h` (missing); HttpSetup. -/
def PUSH_HTTPSTART : Nat := 4
/-- Modelled from the spec: enum `push_states` of `push.h` (missing); HttpSend. -/
def PUSH_HTTP : Nat := 5
/-- Modelled from the spec: enum `push_states` of `push.h` (missing); HttpBackoff. -/
def PUSH_HTTPWAIT : Nat := 6
/-- Modelled from the spec: enum `push_states` of `push.h` (missing); MqttSetup. -/
def PUSH_MQTTSTART : Nat := 7
/-- Modelled from the spec: enum `push_states` of `push.h` (missing); MqttSend. -/
def PUSH_MQTT : Nat := 8
/-- Modelled from the spec: enum `push_states` of `push.h` (missing); MqttBackoff. -/
def PUSH_MQTTWAIT : Nat := 9
/-- Modelled from the spec: enum `push_states` of `push.h` (missing); Finish. -/
def PUSH_FINISH : Nat := 10

/-- The SDK value of `STATION_GOT_IP` (`user_interface.h`). -/
def STATION_GOT_IP : Nat := 5

/-- Levels passed to `statusLed`. -/
inductive Led
  | LED_OFF
  | LED_FLASH1
  | LED_FLASH2
  | LED_FLASH3
  | LED_FLASH4
  deriving DecidableEq, Repr

/-- Reduction of a value to `uint8_t`. -/
def u8 (n : Nat) : Nat := n % 256

/-- Reduction of a value to `uint16_t`. -/
def u16 (n : Nat) : Nat := n % 65536

/-- Reduction of an integer to a 32 bit two's complement `int`. -/
def wrapInt32 (z : Int) : Int := (z + 2147483648) % 4294967296 - 2147483648

/-! ## State -/

/-- The file-scope variables of `push.c`. -/
structure PushCycle where
  pushState : Nat
  pushErrorDelay : Nat
  pushRetries : Nat
  pushRedirect : Nat
  deriving DecidableEq, Repr

/-- The fields of `configGet()` which `push.c` reads or writes, apart from the
ones which only enter the text of the HTTP request. -/
structure Config where
  http_enabled : Nat
  mqtt_enabled : Nat
  sensor_interval : Nat
  mqtt_topic : List Char
  deriving DecidableEq, Repr

/-- Calls into other modules, as recorded in `World.log`. -/
inductive Effect
  | statusLed (level : Led)
  | sensorsRead (retry : Nat)
  | httpPush
  | http_get (url : List Char) (accepted : Bool)
  | mqttPush
  | MQTT_InitConnection (security : Nat)
  | MQTT_InitClient
  | MQTT_Connect
  | MQTT_Publish (topic : List Char) (data : List Char)
  | MQTT_Disconnect
  | MQTT_DeleteClient
  | system_deep_sleep (time_in_us : Int)
  deriving DecidableEq, Repr

/-- Everything `push.c` acts on: its own variables, the configuration, the two
one-shot timers `pushTimer` and `pushTimeoutTimer`, the number of HTTP
requests handed to the transport whose callback has not run yet, and the
record of calls into other modules (newest first). -/
structure World where
  cycle : PushCycle
  config : Config
  pushTimerArmed : Bool
  pushTimeoutTimerArmed : Bool
  httpOutstanding : Nat
  log : List Effect
  deriving DecidableEq, Repr

/-- Appends a call to the record. -/
def World.emit (w : World) (e : Effect) : World :=
  { w with log := e :: w.log }

/-- What a poll tick reads from the other modules. -/
structure TickEnv where
  /-- Return value of `sensorsRead(retry)`. -/
  sensorsRead : Nat → Int
  /-- Return value of `wifi_station_get_connect_status()`. -/
  connect_status : Nat
  /-- Text which the formatting in `httpPush` leaves in `buff`, by HTTP mode. -/
  http_buff : Nat → List Char
  /-- Whether the HTTP transport accepts the request of `httpPush`. -/
  http_get : Bool
  /-- Return value of `configIsFirstStart()`. -/
  configIsFirstStart : Bool

/-! ## Timers and sleep -/

/-- Source `pushTimer`: (re)arms the one-shot poll timer. -/
def pushTimer (_K : Consts) (w : World) : World :=
  { w with pushTimerArmed := true }

/-- Source `pushTimeout`: (re)arms the one-shot timeout timer. -/
def pushTimeout (_K : Consts) (w : World) : World :=
  { w with pushTimeoutTimerArmed := true }

/-- Source `sleepmode`: `uint16_t interval = configGet()->sensor_interval;
system_deep_sleep(interval*1000*1000);` with the product taken in `int`. -/
def sleepmode (w : World) : World :=
  let interval := u16 w.config.sensor_interval
  w.emit (Effect.system_deep_sleep (wrapInt32 (wrapInt32 ((interval : Int) * 1000) * 1000)))

/-- Source `pushTimeoutCb`. -/
def pushTimeoutCb (w : World) : World :=
  sleepmode w

/-- Source `pushSensorData`. -/
def pushSensorData (K : Consts) (w : World) : World :=
  let w := { w with cycle := { w.cycle with pushState := PUSH_INIT } }
  let w := { w with cycle := { w.cycle with pushErrorDelay := 0 } }
  let w := { w with cycle := { w.cycle with pushRetries := 0 } }
  let w := { w with cycle := { w.cycle with pushRedirect := 0 } }
  let w := w.emit (Effect.statusLed Led.LED_FLASH1)
  let w := pushTimer K w
  pushTimeout K w

/-! ## C strings -/

/-- The terminator of a C string. -/
def NUL : Char := Char.ofNat 0

/-- C `strstr(s, needle)`: the rest of `s` from the first occurrence of
`needle` on, or nothing (`NULL`) when `needle` does not occur. -/
def os_strstr : List Char → List Char → Option (List Char)
  | [], needle => if needle.isPrefixOf [] then some [] else none
  | c :: s, needle =>
    if needle.isPrefixOf (c :: s) then some (c :: s) else os_strstr s needle

/-- C `strtok(s, delims)` seen from the pointer `s`, which is all the callers
use: the string at `s` after the call.  `strtok` skips the leading delimiters,
runs over the token that follows and overwrites the delimiter which ends it
with NUL; without a token nothing is written. -/
def strtok (s : List Char) (delims : List Char) : List Char :=
  s.takeWhile (fun c => delims.contains c) ++
    (s.dropWhile (fun c => delims.contains c)).takeWhile (fun c => !delims.contains c)

/-- C `isspace` in the C locale. -/
def isspace (c : Char) : Bool :=
  c = ' ' || c = '\t' || c = '\n' || c = Char.ofNat 11 || c = Char.ofNat 12 || c = '\r'

/-- Value of the longest run of decimal digits at the head of `s`,
continuing from `acc`. -/
def digitsValue : Nat → List Char → Nat
  | acc, [] => acc
  | acc, c :: s => if c.isDigit then digitsValue (acc * 10 + (c.toNat - 48)) s else acc

/-- Saturation of `strtol` to the range of a 32 bit `long`. -/
def clampInt32 (z : Int) : Int :=
  if z < -2147483648 then -2147483648 else if z > 2147483647 then 2147483647 else z

/-- C `atoi` (`(int) strtol(s, NULL, 10)`): leading white space, an optional
sign, then decimal digits; out of range values saturate. -/
def atoi (s : List Char) : Int :=
  match s.dropWhile isspace with
  | [] => 0
  | c :: t =>
    if c = '-' then clampInt32 (-(digitsValue 0 t : Int))
    else if c = '+' then clampInt32 (digitsValue 0 t)
    else clampInt32 (digitsValue 0 (c :: t))

/-- C `strncpy(dest, src, n)`: the `n` bytes it writes to `dest`: the first
`n` characters of `src`, padded with NUL when `src` is shorter. -/
def os_strncpy (src : List Char) (n : Nat) : List Char :=
  src.take n ++ List.replicate (n - src.length) NUL

/-- C `strlen` on a buffer: the index of its first NUL; nothing when the
buffer holds no NUL (the scan leaves the buffer). -/
def strlen (buf : List Char) : Option Nat :=
  if buf.indexOf NUL < buf.length then some (buf.indexOf NUL) else none

/-- C `strcat(dest, src)` on a buffer `dest` of fixed size: nothing when the
buffer holds no string or the result and its terminator do not fit. -/
def os_strcat (buf : List Char) (src : List Char) : Option (List Char) :=
  match strlen buf with
  | none => none
  | some n =>
    if n + src.length + 1 ≤ buf.length then
      some (buf.take n ++ src ++ [NUL] ++ buf.drop (n + src.length + 1))
    else none

/-- The string held by a buffer. -/
def cstring (buf : List Char) : Option (List Char) :=
  (strlen buf).map (fun n => buf.take n)

/-! ## HTTP stage -/

/-- The external `http_get(url, "", httpPushCb)`: recorded, and one more
request is outstanding when the transport accepts it. -/
def http_get (url : List Char) (accepted : Bool) (w : World) : World :=
  { w with
    httpOutstanding := if accepted then w.httpOutstanding + 1 else w.httpOutstanding
    log := Effect.http_get url accepted :: w.log }

/-- Source `httpPush`: returns 1 when HTTP is disabled or the transport
rejects the request, 0 when the request was handed over.  The three ways of
formatting the request (two fixed services, the custom URL with its
placeholders) use macros and a function which are not in the sources at hand:
`env.http_buff mode` is the text they leave in `buff`. -/
def httpPush (env : TickEnv) (w : World) : Nat × World :=
  let w := w.emit Effect.httpPush
  let mode := u8 w.config.http_enabled
  if mode = 0 then (1, w)
  else
    let buff := env.http_buff mode
    let w := http_get buff env.http_get w
    if !env.http_get then (1, w) else (0, w)

/-- Source `httpPushCb(response, http_status, full_response)`; `accept` is
the answer of the transport to the follow-up request of a redirect. -/
def httpPushCb (K : Consts) (accept : Bool) (http_status : Int)
    (full_response : List Char) (w : World) : World :=
  if http_status = 200 then
    let w :=
      match os_strstr full_response "X-Interval-Override: ".toList with
      | some tmp =>
        let tmp := tmp.drop 21
        let tmp := strtok tmp "\r\n".toList
        let value := atoi tmp
        if value ≥ 30 ∧ value ≤ 21600 then
          { w with config := { w.config with sensor_interval := value.toNat } }
        else w
      | none => w
    { w with cycle := { w.cycle with pushState := w.cycle.pushState + 1 } }
  else if http_status = 301 ∨ http_status = 302 then
    let w := { w with cycle := { w.cycle with pushRedirect := u8 (w.cycle.pushRedirect + 255) } }
    if w.cycle.pushRedirect = 0 then
      { w with cycle := { w.cycle with pushState := w.cycle.pushState + 1 } }
    else
      match os_strstr full_response "Location: ".toList with
      | some tmp =>
        let tmp := tmp.drop 10
        let tmp := strtok tmp "\r\n".toList
        let buff := tmp.take 255
        let w := http_get buff accept w
        if !accept then
          { w with cycle := { w.cycle with
              pushErrorDelay := u8 (K.PUSH_ERROR_DELAY + 1)
              pushRetries := u8 (w.cycle.pushRetries + 1) } }
        else w
      | none =>
        { w with cycle := { w.cycle with
            pushErrorDelay := u8 (K.PUSH_ERROR_DELAY + 1)
            pushRetries := u8 (w.cycle.pushRetries + 1) } }
  else
    { w with cycle := { w.cycle with
        pushErrorDelay := u8 (K.PUSH_ERROR_DELAY + 1)
        pushRetries := u8 (w.cycle.pushRetries + 1) } }

/-! ## MQTT stage -/

/-- Source `mqttPush`: returns 1 when MQTT is disabled, 0 once the connect
was initiated (`MQTT_InitConnection`, `MQTT_InitClient`, the callbacks,
`MQTT_Connect`). -/
def mqttPush (w : World) : Nat × World :=
  let w := w.emit Effect.mqttPush
  if w.config.mqtt_enabled = 0 then (1, w)
  else
    let w := w.emit (Effect.MQTT_InitConnection (if w.config.mqtt_enabled = 1 then 0 else 1))
    let w := w.emit Effect.MQTT_InitClient
    let w := w.emit Effect.MQTT_Connect
    (0, w)

/-- The topic `mqttPublish` builds in `tmp_topic[128]`; nothing when a write
or a scan leaves the buffer. -/
def mqttTopic (topic : List Char) (sub : List Char) : Option (List Char) :=
  let tmp_topic := os_strncpy topic 128
  match strlen tmp_topic with
  | none => none
  | some n =>
    let appended :=
      if tmp_topic.getD n NUL ≠ '/' then os_strcat tmp_topic "/".toList else some tmp_topic
    match appended with
    | none => none
    | some tmp_topic =>
      match os_strcat tmp_topic sub with
      | none => none
      | some tmp_topic => cstring tmp_topic

/-- Source `mqttPublish(client, topic, sub, msg)`. -/
def mqttPublish (topic : List Char) (sub : List Char) (msg : List Char) (w : World) :
    Option World :=
  match mqttTopic topic sub with
  | none => none
  | some tmp_topic => some (w.emit (Effect.MQTT_Publish tmp_topic msg))

/-- The strings of the sensor module. -/
structure Sensors where
  temperatureToString : List Char
  humidityToString : List Char
  pressureToString : List Char
  batteryVoltageToString : List Char
  rssiToString : List Char

/-- Source `mqttPushCb`, the on-connect callback. -/
def mqttPushCb (s : Sensors) (w : World) : Option World :=
  (mqttPublish w.config.mqtt_topic "temperature".toList s.temperatureToString w).bind fun w =>
  (mqttPublish w.config.mqtt_topic "humidity".toList s.humidityToString w).bind fun w =>
  (mqttPublish w.config.mqtt_topic "pressure".toList s.pressureToString w).bind fun w =>
  (mqttPublish w.config.mqtt_topic "battery".toList s.batteryVoltageToString w).bind fun w =>
  mqttPublish w.config.mqtt_topic "rssi".toList s.rssiToString w

/-- Source `mqttPublishCb`, the on-publish callback; `queueEmpty` is
`QUEUE_IsEmpty(&mqttClient.msgQueue)`. -/
def mqttPublishCb (queueEmpty : Bool) (w : World) : World :=
  if queueEmpty then
    let w := w.emit Effect.MQTT_Disconnect
    let w := w.emit Effect.MQTT_DeleteClient
    { w with cycle := { w.cycle with pushState := w.cycle.pushState + 1 } }
  else w

/-- Source `mqttErrorCb`, the on-timeout callback. -/
def mqttErrorCb (K : Consts) (w : World) : World :=
  let w := w.emit Effect.MQTT_Disconnect
  let w := w.emit Effect.MQTT_DeleteClient
  { w with cycle := { w.cycle with
      pushErrorDelay := u8 (K.PUSH_ERROR_DELAY + 1)
      pushRetries := u8 (w.cycle.pushRetries + 1) } }

/-! ## The sequencer -/

/-- Assignment to `pushState`. -/
def World.setState (w : World) (s : Nat) : World :=
  { w with cycle := { w.cycle with pushState := s } }

/-- The `switch (pushState)` of `pushTimerCb`. -/
def pushSwitch (K : Consts) (env : TickEnv) (w : World) : World :=
  if w.cycle.pushState = PUSH_IDLE then w
  else if w.cycle.pushState = PUSH_INIT then
    if w.config.http_enabled = 0 ∧ w.config.mqtt_enabled = 0 then
      w.setState PUSH_FINISH
    else
      let w := w.emit (Effect.statusLed Led.LED_FLASH1)
      let w := { w with cycle := { w.cycle with pushRetries := 0 } }
      w.setState (w.cycle.pushState + 1)
  else if w.cycle.pushState = PUSH_READ then
    let r := env.sensorsRead w.cycle.pushRetries
    let w := w.emit (Effect.sensorsRead w.cycle.pushRetries)
    if r < 0 then
      let w := { w with cycle := { w.cycle with pushRetries := u8 (w.cycle.pushRetries + 1) } }
      if w.cycle.pushRetries ≥ 5 then w.setState (w.cycle.pushState + 1) else w
    else w.setState (w.cycle.pushState + 1)
  else if w.cycle.pushState = PUSH_IPWAIT then
    if u8 env.connect_status = STATION_GOT_IP then w.setState (w.cycle.pushState + 1) else w
  else if w.cycle.pushState = PUSH_HTTPSTART then
    let w := { w with cycle := { w.cycle with pushRetries := 0 } }
    w.setState (w.cycle.pushState + 1)
  else if w.cycle.pushState = PUSH_HTTP then
    let w := w.emit (Effect.statusLed Led.LED_FLASH2)
    let w := { w with cycle := { w.cycle with pushRedirect := u8 K.PUSH_REDIRECT_MAX } }
    let r := httpPush env w
    let w := r.2
    if r.1 = 0 ∧ w.cycle.pushRetries < K.PUSH_RETRIES_MAX - 1 then
      w.setState (w.cycle.pushState + 1)
    else w.setState (w.cycle.pushState + 2)
  else if w.cycle.pushState = PUSH_HTTPWAIT then
    if w.cycle.pushErrorDelay > 0 then
      let w := w.emit (Effect.statusLed Led.LED_FLASH3)
      let w := { w with cycle := { w.cycle with pushErrorDelay := u8 (w.cycle.pushErrorDelay + 255) } }
      if w.cycle.pushErrorDelay = 0 then w.setState PUSH_HTTP else w
    else w
  else if w.cycle.pushState = PUSH_MQTTSTART then
    let w := { w with cycle := { w.cycle with pushRetries := 0 } }
    w.setState (w.cycle.pushState + 1)
  else if w.cycle.pushState = PUSH_MQTT then
    let w := w.emit (Effect.statusLed Led.LED_FLASH2)
    let r := mqttPush w
    let w := r.2
    if r.1 = 0 ∧ w.cycle.pushRetries < K.PUSH_RETRIES_MAX - 1 then
      w.setState (w.cycle.pushState + 1)
    else w.setState (w.cycle.pushState + 2)
  else if w.cycle.pushState = PUSH_MQTTWAIT then
    if w.cycle.pushErrorDelay > 0 then
      let w := w.emit (Effect.statusLed Led.LED_FLASH3)
      let w := { w with cycle := { w.cycle with pushErrorDelay := u8 (w.cycle.pushErrorDelay + 255) } }
      if w.cycle.pushErrorDelay = 0 then w.setState PUSH_MQTT else w
    else w
  else if w.cycle.pushState = PUSH_FINISH then
    let w := w.emit (Effect.statusLed Led.LED_OFF)
    let w :=
      if env.configIsFirstStart then w.emit (Effect.statusLed Led.LED_FLASH4)
      else sleepmode w
    w.setState PUSH_IDLE
  else w.setState PUSH_IDLE

/-- Source `pushTimerCb`: the switch, then the timer is armed again unless the
state is `PUSH_IDLE`. -/
def pushTimerCb (K : Consts) (env : TickEnv) (w : World) : World :=
  let w := pushSwitch K env w
  if w.cycle.pushState > PUSH_IDLE then pushTimer K w else w

/-! ## Executions -/

/-- What the event loop can deliver to `push.c`. -/
inductive Event
  | tick (env : TickEnv)
  | httpResponse (http_status : Int) (full_response : List Char) (accept : Bool)
  | mqttConnected (s : Sensors)
  | mqttPublished (queueEmpty : Bool)
  | mqttTimeout
  | timeout

/-- Delivery of one event.  A one-shot timer fires only when armed and is
disarmed by firing; an HTTP response ends one outstanding request.  The
result is nothing only when `mqttPublish` leaves its buffer. -/
def step (K : Consts) (w : World) : Event → Option World
  | Event.tick env =>
    some (if w.pushTimerArmed then pushTimerCb K env { w with pushTimerArmed := false } else w)
  | Event.httpResponse http_status full_response accept =>
    some (httpPushCb K accept http_status full_response
      { w with httpOutstanding := w.httpOutstanding - 1 })
  | Event.mqttConnected s => mqttPushCb s w
  | Event.mqttPublished queueEmpty => some (mqttPublishCb queueEmpty w)
  | Event.mqttTimeout => some (mqttErrorCb K w)
  | Event.timeout =>
    some (if w.pushTimeoutTimerArmed then
      pushTimeoutCb { w with pushTimeoutTimerArmed := false } else w)

/-- Delivery of a sequence of events, oldest first. -/
def run (K : Consts) : World → List Event → Option World
  | w, [] => some w
  | w, e :: es => (step K w e).bind fun w1 => run K w1 es

/-! ## Readings used in the statements -/

/-- Poll ticks in a row, oldest first. -/
def ticks (K : Consts) : World → List TickEnv → World
  | w, [] => w
  | w, env :: envs => ticks K (pushTimerCb K env w) envs

/-- Number of recorded entries into `httpPush`. -/
def World.httpPushCalls (w : World) : Nat :=
  w.log.count Effect.httpPush

/-- Whether a recorded call is a request handed to `http_get`. -/
def Effect.isHttpGet : Effect → Bool
  | Effect.http_get _ _ => true
  | _ => false

/-- Number of recorded requests handed to `http_get`. -/
def World.httpGets (w : World) : Nat :=
  w.log.countP Effect.isHttpGet

/-- Whether a recorded call is `system_deep_sleep`. -/
def Effect.isSleep : Effect → Bool
  | Effect.system_deep_sleep _ => true
  | _ => false

/-- Number of recorded calls of `system_deep_sleep`. -/
def World.sleeps (w : World) : Nat :=
  w.log.countP Effect.isSleep

/-- Whether an event is the MQTT on-publish callback. -/
def Event.isMqttPublished : Event → Bool
  | Event.mqttPublished _ => true
  | _ => false

/-- Whether an event is the expiry of the timeout timer. -/
def Event.isTimeout : Event → Bool
  | Event.timeout => true
  | _ => false

/-- Executions of the HTTP stage: poll ticks, and HTTP responses which are
delivered only while a request is outstanding and the sequencer waits in
`PUSH_HTTPWAIT`. -/
def httpDisciplined (K : Consts) : World → List Event → Bool
  | _, [] => true
  | w, e :: es =>
    (match e with
      | Event.tick _ => true
      | Event.httpResponse _ _ _ =>
        decide (0 < w.httpOutstanding ∧ w.cycle.pushState = PUSH_HTTPWAIT)
      | _ => false) &&
    (match step K w e with
      | some w1 => httpDisciplined K w1 es
      | none => false)

/-- Executions of one HTTP attempt under redirection: only HTTP responses with
status 301 or 302, each delivered while a request is outstanding. -/
def redirectDisciplined (K : Consts) : World → List Event → Bool
  | _, [] => true
  | w, e :: es =>
    (match e with
      | Event.httpResponse http_status _ _ =>
        decide ((http_status = 301 ∨ http_status = 302) ∧ 0 < w.httpOutstanding)
      | _ => false) &&
    (match step K w e with
      | some w1 => redirectDisciplined K w1 es
      | none => false)

/-- The moves of `pushState` which the ordering of the eleven states allows:
from one of the eleven states to one of the eleven states, and there no move,
a move to a later state, the return from HttpBackoff to HttpSend or from
MqttBackoff to MqttSend, or the reset from Finish to Idle. -/
def OrderedMove (s s1 : Nat) : Prop :=
  s ≤ PUSH_FINISH ∧ s1 ≤ PUSH_FINISH ∧
    (s1 = s ∨ s < s1 ∨ (s = PUSH_HTTPWAIT ∧ s1 = PUSH_HTTP) ∨
      (s = PUSH_MQTTWAIT ∧ s1 = PUSH_MQTT) ∨ (s = PUSH_FINISH ∧ s1 = PUSH_IDLE))

instance (s s1 : Nat) : Decidable (OrderedMove s s1) := by
  show Decidable (_ ∧ _)
  infer_instance

/-! ## Invariants of executions -/

/-- Invariant of the HTTP stage in disciplined executions; `c0` is the number
of entries into `httpPush` recorded before the cycle started.  The states are
given by value: 1 to 4 come before the HTTP stage, 5 is HttpSend, 6 is
HttpBackoff (with the request outstanding, or after its failure), 7 and more
and 0 come after the HTTP stage. -/
def HttpInv (K : Consts) (c0 : Nat) (w : World) : Prop :=
  (1 ≤ w.cycle.pushState ∧ w.cycle.pushState ≤ 4 ∧ w.httpPushCalls = c0 ∧
      w.httpOutstanding = 0 ∧ w.cycle.pushErrorDelay = 0) ∨
  (w.cycle.pushState = 5 ∧ w.httpPushCalls = c0 + w.cycle.pushRetries ∧
      w.cycle.pushRetries < K.PUSH_RETRIES_MAX ∧ w.httpOutstanding = 0 ∧
      w.cycle.pushErrorDelay = 0) ∨
  (w.cycle.pushState = 6 ∧ w.httpOutstanding = 1 ∧
      w.httpPushCalls = c0 + w.cycle.pushRetries + 1 ∧
      w.cycle.pushRetries + 1 < K.PUSH_RETRIES_MAX ∧ w.cycle.pushErrorDelay = 0) ∨
  (w.cycle.pushState = 6 ∧ w.httpOutstanding = 0 ∧
      w.httpPushCalls = c0 + w.cycle.pushRetries ∧
      w.cycle.pushRetries < K.PUSH_RETRIES_MAX) ∨
  ((w.cycle.pushState = 0 ∨ 7 ≤ w.cycle.pushState) ∧
      w.httpPushCalls ≤ c0 + K.PUSH_RETRIES_MAX)

/-- Invariant of one HTTP attempt under redirection; `g0` is the number of
requests recorded when the attempt was made. -/
def RedirInv (K : Consts) (g0 : Nat) (w : World) : Prop :=
  (w.httpOutstanding = 0 ∧ w.httpGets + 1 ≤ g0 + K.PUSH_REDIRECT_MAX) ∨
  (w.httpOutstanding = 1 ∧ 1 ≤ w.cycle.pushRedirect ∧ w.cycle.pushRedirect ≤ 255 ∧
    w.httpGets + w.cycle.pushRedirect ≤ g0 + K.PUSH_REDIRECT_MAX)

/-- Invariant of a cycle with respect to the timeout timer; `n0` is the number
of deep sleeps recorded before the cycle started and `topic` the configured
MQTT topic. -/
def WdInv (n0 : Nat) (topic : List Char) (w : World) : Prop :=
  w.config.mqtt_topic = topic ∧ n0 ≤ w.sleeps ∧
    (w.pushTimeoutTimerArmed = true ∨ n0 < w.sleeps)

/-! ## Concrete inputs used in examples -/

/-- A choice of the macros of `push.h`. -/
def exampleConsts : Consts :=
  { PUSH_CHECK_INTERVAL_MSEC := 250, PUSH_TIMEOUT_SEC := 30, PUSH_RETRIES_MAX := 3,
    PUSH_ERROR_DELAY := 2, PUSH_REDIRECT_MAX := 3 }

/-- The macros with three attempts and a backoff of one tick. -/
def quickConsts : Consts :=
  { exampleConsts with PUSH_RETRIES_MAX := 3, PUSH_ERROR_DELAY := 0 }

/-- The macros with `PUSH_RETRIES_MAX` beyond the range of the `uint8_t`
counter it is compared with. -/
def retryConsts257 : Consts :=
  { exampleConsts with PUSH_RETRIES_MAX := 257, PUSH_ERROR_DELAY := 0 }

/-- A configuration with a custom HTTP URL and MQTT enabled. -/
def exampleConfig : Config :=
  { http_enabled := 3, mqtt_enabled := 1, sensor_interval := 600, mqtt_topic := "weather".toList }

/-- The device after boot: nothing armed, nothing outstanding, nothing recorded. -/
def bootWorld : World :=
  { cycle := { pushState := PUSH_IDLE, pushErrorDelay := 0, pushRetries := 0, pushRedirect := 0 }
    config := exampleConfig
    pushTimerArmed := false
    pushTimeoutTimerArmed := false
    httpOutstanding := 0
    log := [] }

/-- A tick at which sensors read, the station has an address and the HTTP
transport accepts requests. -/
def envGood : TickEnv :=
  { sensorsRead := fun _ => 0
    connect_status := STATION_GOT_IP
    http_buff := fun _ => "http://example.org/push?t=21.5".toList
    http_get := true
    configIsFirstStart := false }

/-- A tick at which the sensor read fails. -/
def envSensorFail : TickEnv :=
  { envGood with sensorsRead := fun _ => -1 }

/-- One failed HTTP attempt: the HttpSend tick, the response with status 500,
and the HttpBackoff tick which counts the delay down (with a backoff of one
tick). -/
def httpFailRound : List Event :=
  [Event.tick envGood,
   Event.httpResponse 500 "HTTP/1.1 500 Internal Server Error\r\n\r\n".toList true,
   Event.tick envGood]

/-- The four ticks from Init to HttpSend, then `n` failed HTTP attempts. -/
def httpFailTrace (n : Nat) : List Event :=
  [Event.tick envGood, Event.tick envGood, Event.tick envGood, Event.tick envGood] ++
    (List.replicate n httpFailRound).flatten

/-- A redirect response with a `Location` header. -/
def redirectTo (url : String) : Event :=
  Event.httpResponse 302
    ("HTTP/1.1 302 Found\r\nLocation: ".toList ++ url.toList ++
      "\r\nContent-Length: 0\r\n\r\n".toList)
    true

/-- A cycle in which HTTP succeeds at once and the first two MQTT attempts
time out, up to the tick which calls `mqttPush` for the third attempt (with
`quickConsts`). -/
def mqttTimeoutTrace : List Event :=
  [Event.tick envGood, Event.tick envGood, Event.tick envGood, Event.tick envGood,
   Event.tick envGood,
   Event.httpResponse 200 "HTTP/1.1 200 OK\r\n\r\n".toList true,
   Event.tick envGood,
   Event.tick envGood, Event.mqttTimeout, Event.tick envGood,
   Event.tick envGood, Event.mqttTimeout, Event.tick envGood]

/-- A cycle in which the station never gets an address, ended by the timeout. -/
def stuckTrace : List Event :=
  [Event.tick envGood, Event.tick envGood,
   Event.tick { envGood with connect_status := 1 },
   Event.tick { envGood with connect_status := 1 },
   Event.tick { envGood with connect_status := 1 },
   Event.timeout]

/-! ## Readings used in the statements on sleep, ticks and reachability -/

/-- The argument which `sleepmode` passes to `system_deep_sleep` when the
configured interval is `sensor_interval`: the product `interval*1000*1000`
of the `uint16_t` interval, taken in 32 bit `int`. -/
def deepSleepTime (sensor_interval : Nat) : Int :=
  wrapInt32 (wrapInt32 ((u16 sensor_interval : Int) * 1000) * 1000)

/-- Number of recorded calls of `sensorsRead`. -/
def World.sensorReads (w : World) : Nat :=
  w.log.countP fun e =>
    match e with
    | Effect.sensorsRead _ => true
    | _ => false

/-- Whether an MQTT session is live: more connects than deleted clients are
recorded. -/
def World.mqttSessionLive (w : World) : Bool :=
  decide (w.log.count Effect.MQTT_DeleteClient < w.log.count Effect.MQTT_Connect)

/-- Executions of a cycle: poll ticks at any point, an HTTP response only
while an accepted request is outstanding, and the MQTT callbacks only while a
session is live. -/
def cycleDisciplined (K : Consts) : World → List Event → Bool
  | _, [] => true
  | w, e :: es =>
    (match e with
      | Event.tick _ => true
      | Event.httpResponse _ _ _ => decide (0 < w.httpOutstanding)
      | Event.mqttConnected _ => w.mqttSessionLive
      | Event.mqttPublished _ => w.mqttSessionLive
      | Event.mqttTimeout => w.mqttSessionLive
      | Event.timeout => false) &&
    (match step K w e with
      | some w1 => cycleDisciplined K w1 es
      | none => false)

/-- The strings of the sensor module in the examples. -/
def exampleSensors : Sensors :=
  { temperatureToString := "21.5".toList
    humidityToString := "40".toList
    pressureToString := "1013".toList
    batteryVoltageToString := "3.1".toList
    rssiToString := "-60".toList }

/-- A cycle with three HTTP attempts allowed (`quickConsts`): two attempts
fail, the request of the third is accepted and the sequencer moves on to the
MQTT stage, which connects and publishes; the response to the third HTTP
request arrives after the last publish was acknowledged. -/
def lateResponseTrace : List Event :=
  httpFailTrace 2 ++
  [Event.tick envGood, Event.tick envGood, Event.tick envGood,
   Event.mqttConnected exampleSensors, Event.mqttPublished true,
   Event.httpResponse 200 "HTTP/1.1 200 OK\r\n\r\n".toList true]

/-! ## Concrete inputs used in the examples on redirects and the state order -/

/-- The macros with a redirect budget of zero. -/
def redirectConsts0 : Consts :=
  { quickConsts with PUSH_REDIRECT_MAX := 0 }

/-- The macros with a redirect budget beyond the range of the `uint8_t`
counter it is stored in. -/
def redirectConsts256 : Consts :=
  { quickConsts with PUSH_REDIRECT_MAX := 256 }

/-- The device at the end of `lateResponseTrace` without its last event: in
Finish, the third HTTP request still outstanding. -/
def finishWithRequestOutstanding : World :=
  (run quickConsts (pushSensorData quickConsts bootWorld) lateResponseTrace.dropLast).getD
    bootWorld

/-! ## Theorems -/

/-! ### C1: start of a cycle -/

/-- C1: whatever the previous contents of the push cycle, `pushSensorData`
leaves it at Init with all three counters zero, and arms both the poll timer
and the timeout timer; so any two invocations start from the same cycle. -/
theorem pushSensorData_resets (K : Consts) (w : World) :
    (pushSensorData K w).cycle = PushCycle.mk PUSH_INIT 0 0 0 ∧
    (pushSensorData K w).pushTimerArmed = true ∧
    (pushSensorData K w).pushTimeoutTimerArmed = true ∧
    ∀ w2 : World, (pushSensorData K w2).cycle = (pushSensorData K w).cycle := by
  refine ⟨rfl, rfl, rfl, fun _ => rfl⟩

/-! ### C strings -/

theorem strlen_shape (s rest : List Char) (hs : NUL ∉ s) :
    strlen (s ++ NUL :: rest) = some s.length := by
  have h : (s ++ NUL :: rest).indexOf NUL = s.length := by
    induction s with
    | nil => simp
    | cons c s ih =>
      have hc : c ≠ NUL := fun h => hs (by simp [h])
      have hs2 : NUL ∉ s := fun h => hs (by simp [h])
      simp [List.indexOf_cons, hc, ih hs2]
  simp [strlen, h]

theorem os_strcat_shape (s rest src : List Char) (hs : NUL ∉ s)
    (hfit : src.length ≤ rest.length) :
    os_strcat (s ++ NUL :: rest) src = some ((s ++ src) ++ NUL :: rest.drop src.length) := by
  have h1 : s.length + src.length + 1 ≤ (s ++ NUL :: rest).length := by
    simp; omega
  simp only [os_strcat, strlen_shape s rest hs, if_pos h1]
  congr 1
  have h2 : (s ++ NUL :: rest).drop (s.length + src.length + 1) = rest.drop src.length := by
    rw [show s.length + src.length + 1 = s.length + (src.length + 1) by omega]
    rw [← List.drop_drop]
    simp
  rw [h2]
  simp

theorem cstring_shape (s rest : List Char) (hs : NUL ∉ s) :
    cstring (s ++ NUL :: rest) = some s := by
  simp [cstring, strlen_shape s rest hs]

theorem os_strncpy_shape (s : List Char) (n : Nat) (h : s.length < n) :
    os_strncpy s n = s ++ NUL :: List.replicate (n - s.length - 1) NUL := by
  unfold os_strncpy
  rw [List.take_of_length_le (by omega)]
  congr 1
  rw [show n - s.length = (n - s.length - 1) + 1 by omega, List.replicate_succ]
  simp

theorem mqttTopic_appends (topic sub : List Char) (ht : NUL ∉ topic) (hsub : NUL ∉ sub)
    (hfit : topic.length + 1 + sub.length + 1 ≤ 128) :
    mqttTopic topic sub = some (topic ++ '/' :: sub) := by
  have hslash : NUL ∉ topic ++ "/".toList := by
    simp [ht]; decide
  unfold mqttTopic
  simp only [os_strncpy_shape topic 128 (by omega), strlen_shape _ _ ht]
  have hget : (topic ++ NUL :: List.replicate (128 - topic.length - 1) NUL).getD topic.length NUL
      = NUL := by
    rw [List.getD_eq_getElem?_getD, List.getElem?_append_right (le_refl _)]
    simp
  have hne : NUL ≠ '/' := by decide
  simp only [hget, ne_eq, hne, not_false_eq_true, if_true]
  rw [os_strcat_shape _ _ _ ht (by simp; omega)]
  simp only []
  rw [os_strcat_shape _ _ _ hslash (by simp; omega)]
  simp only []
  rw [cstring_shape]
  · simp
  · simp [ht, hsub]; decide

theorem os_strstr_of_isPrefixOf (needle s : List Char) (h : needle.isPrefixOf s = true) :
    os_strstr s needle = some s := by
  cases s with
  | nil => simp [os_strstr, h]
  | cons c s => simp only [os_strstr, h, if_true]

theorem os_strstr_first (needle post : List Char) :
    ∀ pre : List Char,
      (∀ a b : List Char, pre ++ needle ++ post = a ++ needle ++ b → pre.length ≤ a.length) →
      os_strstr (pre ++ needle ++ post) needle = some (needle ++ post) := by
  intro pre
  induction pre with
  | nil =>
    intro _
    exact os_strstr_of_isPrefixOf needle _ (by simp)
  | cons c pre ih =>
    intro hfirst
    have hnp : needle.isPrefixOf (c :: (pre ++ needle ++ post)) = false := by
      by_contra hcon
      have hcon2 : needle.isPrefixOf (c :: (pre ++ needle ++ post)) = true := by
        simpa using hcon
      have hpre : needle <+: c :: (pre ++ needle ++ post) := by simpa using hcon2
      obtain ⟨b, hb⟩ := hpre
      have := hfirst [] b (by simp [hb])
      simp at this
    have hrec := ih (fun a b hab => by
      have := hfirst (c :: a) b (by simp [hab])
      simpa using this)
    have e : c :: pre ++ needle ++ post = c :: (pre ++ needle ++ post) := by simp
    rw [e, os_strstr, hnp]
    simpa using hrec

theorem os_strstr_none (needle : List Char) :
    ∀ s : List Char, ¬ needle <:+: s → os_strstr s needle = none := by
  intro s
  induction s with
  | nil =>
    intro h
    have hn : needle ≠ [] := fun hn => h (by simp [hn])
    simp [os_strstr, hn]
  | cons c s ih =>
    intro h
    have hnp : needle.isPrefixOf (c :: s) = false := by
      by_contra hcon
      have hcon2 : needle.isPrefixOf (c :: s) = true := by simpa using hcon
      have hpre : needle <+: c :: s := by simpa using hcon2
      exact h hpre.isInfix
    have hs : ¬ needle <:+: s := fun hi => h (hi.trans (List.infix_cons (List.infix_refl s)))
    simp [os_strstr, hnp, ih hs]

theorem isDigit_ne (c d : Char) (h : c.isDigit = true) (hd : d.isDigit = false) : c ≠ d := by
  intro e
  subst e
  simp [h] at hd

theorem isDigit_not_crlf (c : Char) (h : c.isDigit = true) :
    "\r\n".toList.contains c = false := by
  have h1 := isDigit_ne c '\r' h (by decide)
  have h2 := isDigit_ne c '\n' h (by decide)
  simp [h1, h2]

theorem takeWhile_append_all (p : Char → Bool) (r : List Char) :
    ∀ ds : List Char, (∀ c ∈ ds, p c = true) →
      (ds ++ r).takeWhile p = ds ++ r.takeWhile p := by
  intro ds
  induction ds with
  | nil => intro _; simp
  | cons d ds ih =>
    intro h
    have hd : p d = true := h d (by simp)
    simp [List.takeWhile_cons, hd, ih (fun c hc => h c (by simp [hc]))]

theorem strtok_token (delims : List Char) (d : Char) (s r : List Char)
    (hs : ∀ c ∈ d :: s, delims.contains c = false) :
    strtok (d :: s ++ r) delims = d :: s ++ r.takeWhile (fun c => !delims.contains c) := by
  have hd : delims.contains d = false := hs d (by simp)
  have h1 : (d :: s ++ r).takeWhile (fun c => delims.contains c) = [] := by
    rw [List.cons_append, List.takeWhile_cons]
    simp only [hd]
    rfl
  have h2 : (d :: s ++ r).dropWhile (fun c => delims.contains c) = d :: s ++ r := by
    rw [List.cons_append, List.dropWhile_cons]
    simp only [hd]
    rfl
  unfold strtok
  rw [h1, h2, List.nil_append]
  exact takeWhile_append_all (fun c => !delims.contains c) r (d :: s)
    (fun c hc => by simp only [hs c hc]; rfl)

theorem strtok_digits (d : Char) (ds r : List Char) (hds : ∀ c ∈ d :: ds, c.isDigit = true) :
    strtok (d :: ds ++ r) "\r\n".toList
      = d :: ds ++ r.takeWhile (fun c => !"\r\n".toList.contains c) :=
  strtok_token _ d ds r (fun c hc => isDigit_not_crlf c (hds c hc))

theorem mqttPublish_of_fit (topic sub msg : List Char) (w : World)
    (ht : NUL ∉ topic) (hsub : NUL ∉ sub) (hfit : topic.length + 1 + sub.length + 1 ≤ 128) :
    mqttPublish topic sub msg w
      = some (w.emit (Effect.MQTT_Publish (topic ++ '/' :: sub) msg)) := by
  unfold mqttPublish
  rw [mqttTopic_appends topic sub ht hsub hfit]

/-- C2: for every base topic and sub-topic without NUL which fit the 128 byte
buffer, `mqttPublish` publishes to base, one more '/', sub-topic: the
separator is appended whether or not the base already ends in '/'. -/
theorem mqttPublish_appends_slash (topic sub msg : List Char) (w : World)
    (ht : NUL ∉ topic) (hsub : NUL ∉ sub) (hfit : topic.length + 1 + sub.length + 1 ≤ 128) :
    mqttPublish topic sub msg w
      = some (w.emit (Effect.MQTT_Publish (topic ++ '/' :: sub) msg)) :=
  mqttPublish_of_fit topic sub msg w ht hsub hfit

set_option maxRecDepth 100000 in
/-- C2, at the base topic `weather/`: the published topic is
`weather//temperature`, with two separators; at `weather` it is
`weather/temperature`. -/
theorem mqttPublish_weather_slash :
    mqttPublish "weather/".toList "temperature".toList "21.5".toList bootWorld
      = some (bootWorld.emit
          (Effect.MQTT_Publish "weather//temperature".toList "21.5".toList)) ∧
    mqttPublish "weather".toList "temperature".toList "21.5".toList bootWorld
      = some (bootWorld.emit
          (Effect.MQTT_Publish "weather/temperature".toList "21.5".toList)) :=
  ⟨mqttPublish_appends_slash "weather/".toList "temperature".toList "21.5".toList bootWorld
      (by decide) (by decide) (by decide),
   mqttPublish_appends_slash "weather".toList "temperature".toList "21.5".toList bootWorld
      (by decide) (by decide) (by decide)⟩

/-! ### C3: the interval override -/

theorem first_occurrence_of_take (hdr full : List Char) (n : Nat)
    (h : ∀ i < n, (full.drop i).take hdr.length ≠ hdr) :
    ∀ a b : List Char, full = a ++ hdr ++ b → n ≤ a.length := by
  intro a b hab
  by_contra hlt
  apply h a.length (by omega)
  rw [hab, List.append_assoc, List.drop_left, List.take_left]

theorem pushTimerCb_cycle (K : Consts) (env : TickEnv) (w : World) :
    (pushTimerCb K env w).cycle = (pushSwitch K env w).cycle := by
  unfold pushTimerCb pushTimer
  simp only []
  split_ifs <;> rfl

theorem pushTimerCb_log (K : Consts) (env : TickEnv) (w : World) :
    (pushTimerCb K env w).log = (pushSwitch K env w).log := by
  unfold pushTimerCb pushTimer
  simp only []
  split_ifs <;> rfl

theorem pushTimerCb_config (K : Consts) (env : TickEnv) (w : World) :
    (pushTimerCb K env w).config = (pushSwitch K env w).config := by
  unfold pushTimerCb pushTimer
  simp only []
  split_ifs <;> rfl

theorem pushTimerCb_httpOutstanding (K : Consts) (env : TickEnv) (w : World) :
    (pushTimerCb K env w).httpOutstanding = (pushSwitch K env w).httpOutstanding := by
  unfold pushTimerCb pushTimer
  simp only []
  split_ifs <;> rfl

theorem pushTimerCb_pushTimeoutTimerArmed (K : Consts) (env : TickEnv) (w : World) :
    (pushTimerCb K env w).pushTimeoutTimerArmed = (pushSwitch K env w).pushTimeoutTimerArmed := by
  unfold pushTimerCb pushTimer
  simp only []
  split_ifs <;> rfl

theorem pushTimerCb_read_fail (K : Consts) (env : TickEnv) (w : World)
    (hs : w.cycle.pushState = PUSH_READ) (hf : env.sensorsRead w.cycle.pushRetries < 0) :
    (pushTimerCb K env w).cycle =
      if u8 (w.cycle.pushRetries + 1) ≥ 5 then
        { w.cycle with pushRetries := u8 (w.cycle.pushRetries + 1), pushState := PUSH_IPWAIT }
      else { w.cycle with pushRetries := u8 (w.cycle.pushRetries + 1) } := by
  rw [pushTimerCb_cycle]
  unfold pushSwitch
  simp only [hs, PUSH_READ, PUSH_IDLE, PUSH_INIT, PUSH_IPWAIT, World.emit, World.setState, hf]
  simp only [Nat.reduceEqDiff, if_false, if_true, Nat.reduceAdd]
  split_ifs <;> simp [hs, PUSH_READ]

theorem pushTimerCb_read_ok (K : Consts) (env : TickEnv) (w : World)
    (hs : w.cycle.pushState = PUSH_READ) (hf : 0 ≤ env.sensorsRead w.cycle.pushRetries) :
    (pushTimerCb K env w).cycle = { w.cycle with pushState := PUSH_IPWAIT } := by
  have hf2 : ¬ env.sensorsRead w.cycle.pushRetries < 0 := by omega
  rw [pushTimerCb_cycle]
  unfold pushSwitch
  simp only [hs, PUSH_READ, PUSH_IDLE, PUSH_INIT, PUSH_IPWAIT, World.emit, World.setState, hf2]
  simp only [Nat.reduceEqDiff, if_false, if_true, Nat.reduceAdd]

theorem pushState_cases (s : Nat) :
    s = PUSH_IDLE ∨ s = PUSH_INIT ∨ s = PUSH_READ ∨ s = PUSH_IPWAIT ∨ s = PUSH_HTTPSTART ∨
      s = PUSH_HTTP ∨ s = PUSH_HTTPWAIT ∨ s = PUSH_MQTTSTART ∨ s = PUSH_MQTT ∨
      s = PUSH_MQTTWAIT ∨ s = PUSH_FINISH ∨ PUSH_FINISH < s := by
  simp only [PUSH_IDLE, PUSH_INIT, PUSH_READ, PUSH_IPWAIT, PUSH_HTTPSTART, PUSH_HTTP,
    PUSH_HTTPWAIT, PUSH_MQTTSTART, PUSH_MQTT, PUSH_MQTTWAIT, PUSH_FINISH]
  omega

theorem pushSwitch_idle (K : Consts) (env : TickEnv) (w : World)
    (hs : w.cycle.pushState = PUSH_IDLE) : pushSwitch K env w = w := by
  unfold pushSwitch
  rw [if_pos hs]

theorem pushSwitch_init (K : Consts) (env : TickEnv) (w : World)
    (hs : w.cycle.pushState = PUSH_INIT) :
    pushSwitch K env w =
      if w.config.http_enabled = 0 ∧ w.config.mqtt_enabled = 0 then w.setState PUSH_FINISH
      else
        ({ (w.emit (Effect.statusLed Led.LED_FLASH1)) with
            cycle := { w.cycle with pushRetries := 0 } } : World).setState PUSH_READ := by
  unfold pushSwitch
  iterate 1 rw [if_neg (by rw [hs]; decide)]
  rw [if_pos hs]
  simp only [World.emit, World.setState, hs]
  rfl

theorem pushSwitch_read (K : Consts) (env : TickEnv) (w : World)
    (hs : w.cycle.pushState = PUSH_READ) :
    pushSwitch K env w =
      if env.sensorsRead w.cycle.pushRetries < 0 then
        if u8 (w.cycle.pushRetries + 1) ≥ 5 then
          ({ (w.emit (Effect.sensorsRead w.cycle.pushRetries)) with
              cycle := { w.cycle with pushRetries := u8 (w.cycle.pushRetries + 1) } }
            : World).setState PUSH_IPWAIT
        else
          { (w.emit (Effect.sensorsRead w.cycle.pushRetries)) with
              cycle := { w.cycle with pushRetries := u8 (w.cycle.pushRetries + 1) } }
      else (w.emit (Effect.sensorsRead w.cycle.pushRetries)).setState PUSH_IPWAIT := by
  unfold pushSwitch
  iterate 2 rw [if_neg (by rw [hs]; decide)]
  rw [if_pos hs]
  simp only [World.emit, World.setState, hs]
  rfl

theorem pushSwitch_ipwait (K : Consts) (env : TickEnv) (w : World)
    (hs : w.cycle.pushState = PUSH_IPWAIT) :
    pushSwitch K env w =
      if u8 env.connect_status = STATION_GOT_IP then w.setState PUSH_HTTPSTART else w := by
  unfold pushSwitch
  iterate 3 rw [if_neg (by rw [hs]; decide)]
  rw [if_pos hs]
  simp only [World.setState, hs]
  rfl

theorem pushSwitch_httpstart (K : Consts) (env : TickEnv) (w : World)
    (hs : w.cycle.pushState = PUSH_HTTPSTART) :
    pushSwitch K env w =
      ({ w with cycle := { w.cycle with pushRetries := 0 } } : World).setState PUSH_HTTP := by
  unfold pushSwitch
  iterate 4 rw [if_neg (by rw [hs]; decide)]
  rw [if_pos hs]
  simp only [World.setState, hs]
  rfl

theorem pushSwitch_http (K : Consts) (env : TickEnv) (w : World)
    (hs : w.cycle.pushState = PUSH_HTTP) :
    pushSwitch K env w =
      if (httpPush env ({ (w.emit (Effect.statusLed Led.LED_FLASH2)) with
            cycle := { w.cycle with pushRedirect := u8 K.PUSH_REDIRECT_MAX } } : World)).1 = 0 ∧
          w.cycle.pushRetries < K.PUSH_RETRIES_MAX - 1 then
        (httpPush env ({ (w.emit (Effect.statusLed Led.LED_FLASH2)) with
            cycle := { w.cycle with pushRedirect := u8 K.PUSH_REDIRECT_MAX } } : World)).2.setState
          PUSH_HTTPWAIT
      else
        (httpPush env ({ (w.emit (Effect.statusLed Led.LED_FLASH2)) with
            cycle := { w.cycle with pushRedirect := u8 K.PUSH_REDIRECT_MAX } } : World)).2.setState
          PUSH_MQTTSTART := by
  unfold pushSwitch
  iterate 5 rw [if_neg (by rw [hs]; decide)]
  rw [if_pos hs]
  simp only [World.emit, World.setState, hs, httpPush, http_get]
  split_ifs <;> rfl

theorem httpPush_eq (env : TickEnv) (w : World) :
    httpPush env w =
      if u8 w.config.http_enabled = 0 then (1, w.emit Effect.httpPush)
      else if env.http_get = true then
        (0, http_get (env.http_buff (u8 w.config.http_enabled)) true (w.emit Effect.httpPush))
      else
        (1, http_get (env.http_buff (u8 w.config.http_enabled)) false (w.emit Effect.httpPush)) := by
  unfold httpPush
  simp only [World.emit]
  split_ifs with h1 h2 <;> simp_all

theorem pushSwitch_httpwait (K : Consts) (env : TickEnv) (w : World)
    (hs : w.cycle.pushState = PUSH_HTTPWAIT) :
    pushSwitch K env w =
      if w.cycle.pushErrorDelay > 0 then
        if u8 (w.cycle.pushErrorDelay + 255) = 0 then
          ({ (w.emit (Effect.statusLed Led.LED_FLASH3)) with
              cycle := { w.cycle with pushErrorDelay := u8 (w.cycle.pushErrorDelay + 255) } }
            : World).setState PUSH_HTTP
        else
          { (w.emit (Effect.statusLed Led.LED_FLASH3)) with
              cycle := { w.cycle with pushErrorDelay := u8 (w.cycle.pushErrorDelay + 255) } }
      else w := by
  unfold pushSwitch
  iterate 6 rw [if_neg (by rw [hs]; decide)]
  rw [if_pos hs]
  simp only [World.emit, World.setState]

theorem pushSwitch_mqttstart (K : Consts) (env : TickEnv) (w : World)
    (hs : w.cycle.pushState = PUSH_MQTTSTART) :
    pushSwitch K env w =
      ({ w with cycle := { w.cycle with pushRetries := 0 } } : World).setState PUSH_MQTT := by
  unfold pushSwitch
  iterate 7 rw [if_neg (by rw [hs]; decide)]
  rw [if_pos hs]
  simp only [World.setState, hs]
  rfl

theorem mqttPush_eq (w : World) :
    mqttPush w =
      if w.config.mqtt_enabled = 0 then (1, w.emit Effect.mqttPush)
      else
        (0, (((w.emit Effect.mqttPush).emit
          (Effect.MQTT_InitConnection (if w.config.mqtt_enabled = 1 then 0 else 1))).emit
            Effect.MQTT_InitClient).emit Effect.MQTT_Connect) := by
  unfold mqttPush
  simp only [World.emit]

theorem pushSwitch_mqtt (K : Consts) (env : TickEnv) (w : World)
    (hs : w.cycle.pushState = PUSH_MQTT) :
    pushSwitch K env w =
      if (mqttPush (w.emit (Effect.statusLed Led.LED_FLASH2))).1 = 0 ∧
          w.cycle.pushRetries < K.PUSH_RETRIES_MAX - 1 then
        (mqttPush (w.emit (Effect.statusLed Led.LED_FLASH2))).2.setState PUSH_MQTTWAIT
      else
        (mqttPush (w.emit (Effect.statusLed Led.LED_FLASH2))).2.setState PUSH_FINISH := by
  unfold pushSwitch
  iterate 8 rw [if_neg (by rw [hs]; decide)]
  rw [if_pos hs]
  simp only [World.emit, World.setState, mqttPush]
  split_ifs <;> simp [hs, PUSH_MQTT, PUSH_MQTTWAIT, PUSH_FINISH]

theorem pushSwitch_mqttwait (K : Consts) (env : TickEnv) (w : World)
    (hs : w.cycle.pushState = PUSH_MQTTWAIT) :
    pushSwitch K env w =
      if w.cycle.pushErrorDelay > 0 then
        if u8 (w.cycle.pushErrorDelay + 255) = 0 then
          ({ (w.emit (Effect.statusLed Led.LED_FLASH3)) with
              cycle := { w.cycle with pushErrorDelay := u8 (w.cycle.pushErrorDelay + 255) } }
            : World).setState PUSH_MQTT
        else
          { (w.emit (Effect.statusLed Led.LED_FLASH3)) with
              cycle := { w.cycle with pushErrorDelay := u8 (w.cycle.pushErrorDelay + 255) } }
      else w := by
  unfold pushSwitch
  iterate 9 rw [if_neg (by rw [hs]; decide)]
  rw [if_pos hs]
  simp only [World.emit, World.setState]

theorem pushSwitch_finish (K : Consts) (env : TickEnv) (w : World)
    (hs : w.cycle.pushState = PUSH_FINISH) :
    pushSwitch K env w =
      if env.configIsFirstStart = true then
        ((w.emit (Effect.statusLed Led.LED_OFF)).emit
          (Effect.statusLed Led.LED_FLASH4)).setState PUSH_IDLE
      else (sleepmode (w.emit (Effect.statusLed Led.LED_OFF))).setState PUSH_IDLE := by
  unfold pushSwitch
  iterate 10 rw [if_neg (by rw [hs]; decide)]
  rw [if_pos hs]
  split_ifs <;> rfl

theorem pushSwitch_default (K : Consts) (env : TickEnv) (w : World)
    (hs : PUSH_FINISH < w.cycle.pushState) :
    pushSwitch K env w = w.setState PUSH_IDLE := by
  have h : 10 < w.cycle.pushState := hs
  unfold pushSwitch
  simp only [PUSH_IDLE, PUSH_INIT, PUSH_READ, PUSH_IPWAIT, PUSH_HTTPSTART, PUSH_HTTP,
    PUSH_HTTPWAIT, PUSH_MQTTSTART, PUSH_MQTT, PUSH_MQTTWAIT, PUSH_FINISH]
  iterate 11 rw [if_neg (by omega)]

/-! ### C4: sensor read retries -/

theorem ticks_read_fail_stay (K : Consts) :
    ∀ (envs : List TickEnv) (w : World) (k : Nat),
      w.cycle.pushState = PUSH_READ → w.cycle.pushRetries = k → k + envs.length ≤ 4 →
      (∀ env ∈ envs, ∀ n, env.sensorsRead n < 0) →
      (ticks K w envs).cycle.pushState = PUSH_READ ∧
        (ticks K w envs).cycle.pushRetries = k + envs.length := by
  intro envs
  induction envs with
  | nil => intro w k hs hr _ _; simp [ticks, hs, hr]
  | cons env envs ih =>
    intro w k hs hr hk hfail
    have hstep := pushTimerCb_read_fail K env w hs (hfail env (by simp) _)
    have hlen : (env :: envs).length = envs.length + 1 := rfl
    have hlt : ¬ u8 (w.cycle.pushRetries + 1) ≥ 5 := by
      unfold u8; omega
    rw [if_neg hlt] at hstep
    have h1 : (pushTimerCb K env w).cycle.pushState = PUSH_READ := by rw [hstep]; exact hs
    have h2 : (pushTimerCb K env w).cycle.pushRetries = k + 1 := by
      rw [hstep]; show u8 (w.cycle.pushRetries + 1) = k + 1; unfold u8; omega
    have := ih (pushTimerCb K env w) (k + 1) h1 h2 (by omega)
      (fun e he => hfail e (by simp [he]))
    simp only [ticks]
    refine ⟨this.1, ?_⟩
    rw [this.2]; omega

theorem ticks_read_fail_fifth (K : Consts) (env : TickEnv) (w : World)
    (hs : w.cycle.pushState = PUSH_READ) (hr : w.cycle.pushRetries = 4)
    (hfail : ∀ n, env.sensorsRead n < 0) :
    (pushTimerCb K env w).cycle.pushState = PUSH_IPWAIT := by
  have hstep := pushTimerCb_read_fail K env w hs (hfail _)
  have hge : u8 (w.cycle.pushRetries + 1) ≥ 5 := by rw [hr]; decide
  rw [if_pos hge] at hstep
  rw [hstep]

theorem ticks_append (K : Consts) :
    ∀ (xs ys : List TickEnv) (w : World), ticks K w (xs ++ ys) = ticks K (ticks K w xs) ys := by
  intro xs
  induction xs with
  | nil => intro ys w; rfl
  | cons x xs ih => intro ys w; simp [ticks, ih]

/-- C4 (as the code has it): from ReadSensors with retryCount 0, the state is
still ReadSensors after each of up to four consecutive failing ticks, and the
fifth consecutive failing tick moves it to AwaitNetwork; a tick whose sensor
read succeeds moves to AwaitNetwork whatever the retryCount. -/
theorem sensor_read_retries (K : Consts) (w : World) (envs : List TickEnv)
    (hs : w.cycle.pushState = PUSH_READ) (hr : w.cycle.pushRetries = 0)
    (hfail : ∀ env ∈ envs, ∀ n, env.sensorsRead n < 0) :
    (envs.length ≤ 4 → (ticks K w envs).cycle.pushState = PUSH_READ ∧
        (ticks K w envs).cycle.pushRetries = envs.length) ∧
    (envs.length = 5 → (ticks K w envs).cycle.pushState = PUSH_IPWAIT) ∧
    (∀ (w2 : World) (env : TickEnv), w2.cycle.pushState = PUSH_READ →
        0 ≤ env.sensorsRead w2.cycle.pushRetries →
        (pushTimerCb K env w2).cycle.pushState = PUSH_IPWAIT) := by
  refine ⟨?_, ?_, ?_⟩
  · intro hlen
    have := ticks_read_fail_stay K envs w 0 hs hr (by omega) hfail
    simpa using this
  · intro hlen
    obtain ⟨first, last, rfl⟩ : ∃ first last, envs = first ++ [last] := by
      rcases List.eq_nil_or_concat envs with h | ⟨l, a, h⟩
      · subst h; simp at hlen
      · exact ⟨l, a, by simpa using h⟩
    have hl4 : first.length = 4 := by simp at hlen; omega
    have h4 := ticks_read_fail_stay K first w 0 hs hr (by omega)
      (fun e he => hfail e (by simp [he]))
    rw [ticks_append]
    simp only [ticks]
    exact ticks_read_fail_fifth K last _ h4.1 (by rw [h4.2]; omega)
      (hfail last (by simp))
  · intro w2 env hs2 hok
    rw [pushTimerCb_read_ok K env w2 hs2 hok]

/-- C4, an instance: from ReadSensors with retryCount 0, five failing ticks. -/
theorem sensor_read_retries_witness :
    (ticks exampleConsts (bootWorld.setState PUSH_READ)
        (List.replicate 4 envSensorFail)).cycle.pushState = PUSH_READ ∧
    (ticks exampleConsts (bootWorld.setState PUSH_READ)
        (List.replicate 5 envSensorFail)).cycle.pushState = PUSH_IPWAIT :=
  ⟨((sensor_read_retries exampleConsts (bootWorld.setState PUSH_READ)
      (List.replicate 4 envSensorFail) rfl rfl
      (fun env he n => by
        rw [List.eq_of_mem_replicate he]; exact (by decide : (-1 : Int) < 0))).1 (by decide)).1,
   (sensor_read_retries exampleConsts (bootWorld.setState PUSH_READ)
      (List.replicate 5 envSensorFail) rfl rfl
      (fun env he n => by
        rw [List.eq_of_mem_replicate he]; exact (by decide : (-1 : Int) < 0))).2.1 (by decide)⟩

/-- C4, as stated, fails: after five consecutive failing ticks from
ReadSensors with retryCount 0 the sequencer is no longer in ReadSensors; the
fifth failing tick, not the sixth, has moved it to AwaitNetwork. -/
theorem sensor_read_five_failures_advance :
    (ticks exampleConsts (bootWorld.setState PUSH_READ)
        (List.replicate 4 envSensorFail)).cycle.pushState = PUSH_READ ∧
    (ticks exampleConsts (bootWorld.setState PUSH_READ)
        (List.replicate 5 envSensorFail)).cycle.pushState = PUSH_IPWAIT ∧
    (ticks exampleConsts (bootWorld.setState PUSH_READ)
        (List.replicate 5 envSensorFail)).cycle.pushState ≠ PUSH_READ := by
  decide

/-! ### C5: the HTTP retry bound -/

theorem HttpInv_pushSwitch (K : Consts) (c0 : Nat) (env : TickEnv) (w : World)
    (h1 : 1 ≤ K.PUSH_RETRIES_MAX) (h : HttpInv K c0 w) :
    HttpInv K c0 (pushSwitch K env w) := by
  obtain ⟨⟨s, d, r, rd⟩, cfg, ta, tta, p, log⟩ := w
  unfold HttpInv at h
  simp only [World.httpPushCalls] at h
  rcases h with ⟨ha, hb, hc, hp, hd⟩ | ⟨hs, hc, hr, hp, hd⟩ | ⟨hs, hp, hc, hr, hd⟩ |
    ⟨hs, hp, hc, hr⟩ | ⟨hs, hc⟩
  · have hs : s = 1 ∨ s = 2 ∨ s = 3 ∨ s = 4 := by omega
    rcases hs with rfl | rfl | rfl | rfl
    · rw [pushSwitch_init _ _ _ rfl]
      unfold HttpInv
      simp only [World.emit, World.setState, World.httpPushCalls, PUSH_FINISH, PUSH_READ]
      split_ifs <;> simp [List.count_cons, hc, hp, hd]
    · rw [pushSwitch_read _ _ _ rfl]
      unfold HttpInv
      simp only [World.emit, World.setState, World.httpPushCalls, PUSH_IPWAIT]
      split_ifs <;> simp [List.count_cons, hc, hp, hd]
    · rw [pushSwitch_ipwait _ _ _ rfl]
      unfold HttpInv
      simp only [World.emit, World.setState, World.httpPushCalls, PUSH_HTTPSTART]
      split_ifs <;> simp [List.count_cons, hc, hp, hd]
    · rw [pushSwitch_httpstart _ _ _ rfl]
      unfold HttpInv
      simp only [World.emit, World.setState, World.httpPushCalls, PUSH_HTTP]
      simp [List.count_cons, hc, hp, hd]
      omega
  · subst hs
    rw [pushSwitch_http _ _ _ rfl, httpPush_eq]
    unfold HttpInv
    simp only [World.emit, World.setState, World.httpPushCalls, PUSH_HTTPWAIT, PUSH_MQTTSTART,
      http_get]
    split_ifs <;> simp_all [List.count_cons] <;> omega
  · subst hs
    rw [pushSwitch_httpwait _ _ _ rfl]
    unfold HttpInv
    simp only [World.emit, World.setState, World.httpPushCalls, PUSH_HTTP]
    split_ifs <;> simp_all [List.count_cons]
  · subst hs
    rw [pushSwitch_httpwait _ _ _ rfl]
    unfold HttpInv
    simp only [World.emit, World.setState, World.httpPushCalls, PUSH_HTTP]
    split_ifs <;> simp_all [List.count_cons]
  · rcases hs with rfl | hs
    · rw [pushSwitch_idle _ _ _ rfl]
      unfold HttpInv
      simp only [World.httpPushCalls]
      simp [hc]
    · have hs2 : s = 7 ∨ s = 8 ∨ s = 9 ∨ s = 10 ∨ 10 < s := by omega
      rcases hs2 with rfl | rfl | rfl | rfl | hs2
      · rw [pushSwitch_mqttstart _ _ _ rfl]
        unfold HttpInv
        simp only [World.setState, World.httpPushCalls, PUSH_MQTT]
        simp [hc]
      · rw [pushSwitch_mqtt _ _ _ rfl, mqttPush_eq]
        unfold HttpInv
        simp only [World.emit, World.setState, World.httpPushCalls, PUSH_MQTTWAIT, PUSH_FINISH]
        split_ifs <;> simp_all [List.count_cons]
      · rw [pushSwitch_mqttwait _ _ _ rfl]
        unfold HttpInv
        simp only [World.emit, World.setState, World.httpPushCalls, PUSH_MQTT]
        split_ifs <;> simp_all [List.count_cons]
      · rw [pushSwitch_finish _ _ _ rfl]
        unfold HttpInv
        simp only [World.emit, World.setState, World.httpPushCalls, PUSH_IDLE, sleepmode]
        split_ifs <;> simp_all [List.count_cons]
      · rw [pushSwitch_default K env ⟨⟨s, d, r, rd⟩, cfg, ta, tta, p, log⟩ hs2]
        unfold HttpInv
        simp only [World.setState, World.httpPushCalls, PUSH_IDLE]
        simp [hc]

theorem HttpInv_congr (K : Consts) (c0 : Nat) (w w2 : World) (hc : w2.cycle = w.cycle)
    (hl : w2.log = w.log) (hp : w2.httpOutstanding = w.httpOutstanding) :
    HttpInv K c0 w2 ↔ HttpInv K c0 w := by
  unfold HttpInv World.httpPushCalls
  rw [hc, hl, hp]

theorem HttpInv_httpPushCb (K : Consts) (c0 : Nat) (accept : Bool) (status : Int)
    (full : List Char) (w : World) (h2 : K.PUSH_RETRIES_MAX ≤ 256) (h : HttpInv K c0 w)
    (hp : 0 < w.httpOutstanding) (hs : w.cycle.pushState = PUSH_HTTPWAIT) :
    HttpInv K c0 (httpPushCb K accept status full
      { w with httpOutstanding := w.httpOutstanding - 1 }) := by
  obtain ⟨⟨s, d, r, rd⟩, cfg, ta, tta, p, log⟩ := w
  unfold HttpInv at h
  simp only [World.httpPushCalls] at h
  simp only [PUSH_HTTPWAIT] at hs
  subst hs
  simp only at hp
  have h3 : p = 1 ∧ List.count Effect.httpPush log = c0 + r + 1 ∧
      r + 1 < K.PUSH_RETRIES_MAX ∧ d = 0 := by
    rcases h with h | h | h | h | h <;> simp at h <;> omega
  obtain ⟨rfl, hc, hr, rfl⟩ := h3
  unfold HttpInv httpPushCb
  simp only [World.httpPushCalls, http_get, u8]
  split_ifs <;> (try split) <;> (try split_ifs) <;> simp_all [List.count_cons] <;> omega

theorem HttpInv_start (K : Consts) (w0 : World) (hp : w0.httpOutstanding = 0) :
    HttpInv K w0.httpPushCalls (pushSensorData K w0) := by
  unfold HttpInv
  left
  simp [pushSensorData, pushTimeout, pushTimer, World.emit, World.httpPushCalls, PUSH_INIT,
    List.count_cons, hp]

theorem HttpInv_bound (K : Consts) (c0 : Nat) (w : World) (h : HttpInv K c0 w) :
    w.httpPushCalls ≤ c0 + K.PUSH_RETRIES_MAX := by
  unfold HttpInv at h
  rcases h with h | h | h | h | h <;> omega

theorem HttpInv_tick (K : Consts) (c0 : Nat) (env : TickEnv) (w : World)
    (h1 : 1 ≤ K.PUSH_RETRIES_MAX) (h : HttpInv K c0 w) :
    ∃ w1, step K w (Event.tick env) = some w1 ∧ HttpInv K c0 w1 := by
  refine ⟨_, rfl, ?_⟩
  split_ifs
  · rw [HttpInv_congr K c0 _ _ (pushTimerCb_cycle K env _) (pushTimerCb_log K env _)
      (pushTimerCb_httpOutstanding K env _)]
    apply HttpInv_pushSwitch K c0 env _ h1
    exact (HttpInv_congr K c0 w _ rfl rfl rfl).mpr h
  · exact h

theorem HttpInv_run (K : Consts) (c0 : Nat) (h1 : 1 ≤ K.PUSH_RETRIES_MAX)
    (h2 : K.PUSH_RETRIES_MAX ≤ 256) :
    ∀ (evs : List Event) (w : World), HttpInv K c0 w → httpDisciplined K w evs = true →
      ∃ w1, run K w evs = some w1 ∧ HttpInv K c0 w1 := by
  intro evs
  induction evs with
  | nil => intro w h _; exact ⟨w, rfl, h⟩
  | cons e es ih =>
    intro w h hd
    cases e with
    | tick env =>
      obtain ⟨w1, hstep, hinv⟩ := HttpInv_tick K c0 env w h1 h
      simp only [httpDisciplined, hstep, Bool.true_and] at hd
      obtain ⟨w2, hrun, hinv2⟩ := ih w1 hinv hd
      exact ⟨w2, by simp [run, hstep, hrun], hinv2⟩
    | httpResponse st full acc =>
      simp only [httpDisciplined, step, Bool.and_eq_true, decide_eq_true_eq] at hd
      obtain ⟨⟨hp, hs⟩, hd⟩ := hd
      have hinv := HttpInv_httpPushCb K c0 acc st full w h2 h hp hs
      obtain ⟨w2, hrun, hinv2⟩ := ih _ hinv hd
      exact ⟨w2, by simp [run, step, hrun], hinv2⟩
    | mqttConnected s => simp [httpDisciplined] at hd
    | mqttPublished q => simp [httpDisciplined] at hd
    | mqttTimeout => simp [httpDisciplined] at hd
    | timeout => simp [httpDisciplined] at hd

/-- C5 (as the code has it): when `1 ≤ PUSH_RETRIES_MAX ≤ 256`, in every
execution of poll ticks and HTTP responses started by `pushSensorData` with
no request outstanding, where each response is delivered while a request is
outstanding and the sequencer waits in HttpBackoff, the execution is defined
and `httpPush` has been entered at most `PUSH_RETRIES_MAX` times. -/
theorem httpPush_retry_bound (K : Consts) (w0 : World) (evs : List Event)
    (h1 : 1 ≤ K.PUSH_RETRIES_MAX) (h2 : K.PUSH_RETRIES_MAX ≤ 256)
    (hp : w0.httpOutstanding = 0)
    (hd : httpDisciplined K (pushSensorData K w0) evs = true) :
    ∃ w, run K (pushSensorData K w0) evs = some w ∧
      w.httpPushCalls ≤ w0.httpPushCalls + K.PUSH_RETRIES_MAX := by
  obtain ⟨w, hrun, hinv⟩ :=
    HttpInv_run K w0.httpPushCalls h1 h2 evs _ (HttpInv_start K w0 hp) hd
  exact ⟨w, hrun, HttpInv_bound K _ w hinv⟩

set_option maxRecDepth 1000000 in
/-- C5, an instance: with `PUSH_RETRIES_MAX = 3`, two failed attempts and the
third HttpSend tick, which enters `httpPush` a third time and abandons HTTP. -/
theorem httpPush_retry_bound_witness :
    httpDisciplined quickConsts (pushSensorData quickConsts bootWorld)
      (httpFailTrace 2 ++ [Event.tick envGood]) = true ∧
    (run quickConsts (pushSensorData quickConsts bootWorld)
      (httpFailTrace 2 ++ [Event.tick envGood])).map
        (fun w => (w.cycle.pushState, w.httpPushCalls)) = some (PUSH_MQTTSTART, 3) ∧
    ∃ w, run quickConsts (pushSensorData quickConsts bootWorld)
        (httpFailTrace 2 ++ [Event.tick envGood]) = some w ∧
      w.httpPushCalls ≤ bootWorld.httpPushCalls + quickConsts.PUSH_RETRIES_MAX :=
  ⟨by decide, by decide,
    httpPush_retry_bound quickConsts bootWorld (httpFailTrace 2 ++ [Event.tick envGood])
      (by decide) (by decide) rfl (by decide)⟩

set_option maxRecDepth 10000000 in
set_option maxHeartbeats 4000000 in
/-- C5, as stated, fails for `PUSH_RETRIES_MAX = 257`: the `uint8_t` retry
counter wraps before it reaches 256, so after 258 failed attempts of a
disciplined execution `httpPush` has been entered 258 times and the sequencer
is again in HttpSend. -/
theorem httpPush_retry_bound_fails_257 :
    httpDisciplined retryConsts257 (pushSensorData retryConsts257 bootWorld)
      (httpFailTrace 258) = true ∧
    (run retryConsts257 (pushSensorData retryConsts257 bootWorld) (httpFailTrace 258)).map
        (fun w => (w.cycle.pushState, w.httpPushCalls)) = some (PUSH_HTTP, 258) ∧
    ¬ (258 ≤ bootWorld.httpPushCalls + retryConsts257.PUSH_RETRIES_MAX) := by
  decide

/-! ### C6: the redirect bound -/

theorem RedirInv_httpPushCb (K : Consts) (g0 : Nat) (accept : Bool) (status : Int)
    (full : List Char) (w : World) (h : RedirInv K g0 w)
    (hst : status = 301 ∨ status = 302) (hp : 0 < w.httpOutstanding) :
    RedirInv K g0 (httpPushCb K accept status full
      { w with httpOutstanding := w.httpOutstanding - 1 }) := by
  obtain ⟨⟨s, d, r, rd⟩, cfg, ta, tta, p, log⟩ := w
  unfold RedirInv at h
  simp only [World.httpGets] at h hp
  have h3 : p = 1 ∧ 1 ≤ rd ∧ rd ≤ 255 ∧
      List.countP Effect.isHttpGet log + rd ≤ g0 + K.PUSH_REDIRECT_MAX := by
    rcases h with h | h <;> omega
  obtain ⟨rfl, hrd1, hrd2, hg⟩ := h3
  have h200 : status ≠ 200 := by omega
  unfold RedirInv httpPushCb
  simp only [World.httpGets, http_get, u8, if_neg h200, if_pos hst]
  split_ifs <;> (try split) <;>
    simp_all [List.countP_cons, Effect.isHttpGet] <;> omega

theorem RedirInv_run (K : Consts) (g0 : Nat) :
    ∀ (evs : List Event) (w : World), RedirInv K g0 w → redirectDisciplined K w evs = true →
      ∃ w1, run K w evs = some w1 ∧ RedirInv K g0 w1 := by
  intro evs
  induction evs with
  | nil => intro w h _; exact ⟨w, rfl, h⟩
  | cons e es ih =>
    intro w h hd
    cases e with
    | httpResponse st full acc =>
      simp only [redirectDisciplined, step, Bool.and_eq_true, decide_eq_true_eq] at hd
      obtain ⟨⟨hst, hp⟩, hd⟩ := hd
      have hinv := RedirInv_httpPushCb K g0 acc st full w h hst hp
      obtain ⟨w2, hrun, hinv2⟩ := ih _ hinv hd
      exact ⟨w2, by simp [run, step, hrun], hinv2⟩
    | tick env => simp [redirectDisciplined] at hd
    | mqttConnected s => simp [redirectDisciplined] at hd
    | mqttPublished q => simp [redirectDisciplined] at hd
    | mqttTimeout => simp [redirectDisciplined] at hd
    | timeout => simp [redirectDisciplined] at hd

theorem RedirInv_after_http_tick (K : Consts) (env : TickEnv) (w : World)
    (hR1 : 1 ≤ K.PUSH_REDIRECT_MAX) (hR2 : K.PUSH_REDIRECT_MAX ≤ 255)
    (hs : w.cycle.pushState = PUSH_HTTP) (hp : w.httpOutstanding = 0) :
    (pushTimerCb K env w).cycle.pushRedirect = K.PUSH_REDIRECT_MAX ∧
    RedirInv K (pushTimerCb K env w).httpGets (pushTimerCb K env w) := by
  have hu : u8 K.PUSH_REDIRECT_MAX = K.PUSH_REDIRECT_MAX := by unfold u8; omega
  unfold RedirInv World.httpGets
  rw [pushTimerCb_cycle, pushTimerCb_log, pushTimerCb_httpOutstanding,
    pushSwitch_http K env w hs, httpPush_eq]
  simp only [World.emit, World.setState, http_get, hu, hp]
  split_ifs <;> simp_all

/-- C6 (as the code has it): with `1 ≤ PUSH_REDIRECT_MAX ≤ 255`, every tick in HttpSend
sets redirectsRemaining to `PUSH_REDIRECT_MAX`; when no request was
outstanding at that tick, every sequence of 301/302 responses after it, each
delivered while a request is outstanding, is processed with at most
`PUSH_REDIRECT_MAX` (indeed fewer) follow-up requests; and the redirect
response which finds the budget at 1 changes only redirectsRemaining (to 0)
and the state (plus one): no request, no backoff, no retry count. -/
theorem redirect_bound (K : Consts) (env : TickEnv) (w : World)
    (hR1 : 1 ≤ K.PUSH_REDIRECT_MAX) (hR2 : K.PUSH_REDIRECT_MAX ≤ 255)
    (hs : w.cycle.pushState = PUSH_HTTP) :
    (pushTimerCb K env w).cycle.pushRedirect = K.PUSH_REDIRECT_MAX ∧
    (w.httpOutstanding = 0 →
      ∀ evs : List Event, redirectDisciplined K (pushTimerCb K env w) evs = true →
      ∃ w2, run K (pushTimerCb K env w) evs = some w2 ∧
        w2.httpGets ≤ (pushTimerCb K env w).httpGets + K.PUSH_REDIRECT_MAX ∧
        w2.httpGets + 1 ≤ (pushTimerCb K env w).httpGets + K.PUSH_REDIRECT_MAX) ∧
    (∀ (w3 : World) (accept : Bool) (http_status : Int) (full : List Char),
      (http_status = 301 ∨ http_status = 302) → w3.cycle.pushRedirect = 1 →
      httpPushCb K accept http_status full w3 =
        { w3 with cycle := { w3.cycle with
            pushRedirect := 0, pushState := w3.cycle.pushState + 1 } }) := by
  refine ⟨?_, ?_, ?_⟩
  · have hu : u8 K.PUSH_REDIRECT_MAX = K.PUSH_REDIRECT_MAX := by unfold u8; omega
    rw [pushTimerCb_cycle, pushSwitch_http K env w hs, httpPush_eq]
    simp only [World.emit, World.setState, http_get, hu]
    split_ifs <;> rfl
  · intro hp evs hd
    obtain ⟨_, hinv⟩ := RedirInv_after_http_tick K env w hR1 hR2 hs hp
    obtain ⟨w2, hrun, hinv2⟩ := RedirInv_run K _ evs _ hinv hd
    refine ⟨w2, hrun, ?_⟩
    unfold RedirInv at hinv2
    rcases hinv2 with h | h <;> omega
  · intro w3 accept st full hst hrd
    have h200 : st ≠ 200 := by omega
    unfold httpPushCb
    simp only [if_neg h200, if_pos hst, hrd, u8]
    rfl

set_option maxRecDepth 1000000 in
/-- C6, an instance with `PUSH_REDIRECT_MAX = 3`: of three redirect
responses with a `Location` header the first two are followed and the third
ends the attempt, the state moving from HttpBackoff to MqttSetup with the
counters for backoff and retries still zero. -/
theorem redirect_bound_witness :
    redirectDisciplined quickConsts (pushTimerCb quickConsts envGood (bootWorld.setState PUSH_HTTP))
      [redirectTo "http://a.example/1", redirectTo "http://b.example/2",
        redirectTo "http://c.example/3"] = true ∧
    (pushTimerCb quickConsts envGood (bootWorld.setState PUSH_HTTP)).httpGets = 1 ∧
    (run quickConsts (pushTimerCb quickConsts envGood (bootWorld.setState PUSH_HTTP))
      [redirectTo "http://a.example/1", redirectTo "http://b.example/2",
        redirectTo "http://c.example/3"]).map (fun w => (w.cycle, w.httpGets))
      = some (PushCycle.mk PUSH_MQTTSTART 0 0 0, 3) ∧
    ∃ w2, run quickConsts (pushTimerCb quickConsts envGood (bootWorld.setState PUSH_HTTP))
        [redirectTo "http://a.example/1", redirectTo "http://b.example/2",
          redirectTo "http://c.example/3"] = some w2 ∧
      w2.httpGets ≤ (pushTimerCb quickConsts envGood (bootWorld.setState PUSH_HTTP)).httpGets
        + quickConsts.PUSH_REDIRECT_MAX ∧
      w2.httpGets + 1 ≤ (pushTimerCb quickConsts envGood (bootWorld.setState PUSH_HTTP)).httpGets
        + quickConsts.PUSH_REDIRECT_MAX :=
  ⟨by decide, by decide, by decide,
    (redirect_bound quickConsts envGood (bootWorld.setState PUSH_HTTP) (by decide) (by decide)
      rfl).2.1 rfl _ (by decide)⟩

set_option maxRecDepth 1000000 in
/-- C6, as stated, fails outside `1 ≤ PUSH_REDIRECT_MAX ≤ 255`.  With `PUSH_REDIRECT_MAX = 0`
the tick in HttpSend stores 0, the pre-decrement of the first redirect
response wraps to 255, and ten redirect responses with a `Location` header,
each accepted by the transport, are all followed: ten follow-up requests with
a bound of zero, and the budget still at 246.  With `PUSH_REDIRECT_MAX = 256`
the tick stores 0, not 256. -/
theorem redirect_bound_fails_0 :
    redirectConsts0.PUSH_REDIRECT_MAX = 0 ∧
    (pushTimerCb redirectConsts0 envGood (bootWorld.setState PUSH_HTTP)).cycle.pushRedirect = 0 ∧
    redirectDisciplined redirectConsts0
      (pushTimerCb redirectConsts0 envGood (bootWorld.setState PUSH_HTTP))
      (List.replicate 10 (redirectTo "http://a.example/1")) = true ∧
    (pushTimerCb redirectConsts0 envGood (bootWorld.setState PUSH_HTTP)).httpGets = 1 ∧
    (run redirectConsts0 (pushTimerCb redirectConsts0 envGood (bootWorld.setState PUSH_HTTP))
      (List.replicate 10 (redirectTo "http://a.example/1"))).map
        (fun w => (w.cycle, w.httpGets, w.httpOutstanding))
      = some (PushCycle.mk PUSH_HTTPWAIT 0 0 246, 11, 1) ∧
    redirectConsts256.PUSH_REDIRECT_MAX = 256 ∧
    (pushTimerCb redirectConsts256 envGood (bootWorld.setState PUSH_HTTP)).cycle.pushRedirect
      = 0 := by
  decide

/-! ### C7: a redirect without Location -/

/-- C7 (as the code has it): a 301/302 response without `Location: `, received
with redirect budget remaining after the decrement, takes the retry path:
the state is unchanged, errorDelayTicks becomes `PUSH_ERROR_DELAY + 1`,
retryCount is incremented, and nothing else changes (no request is issued). -/
theorem httpPushCb_redirect_without_location (K : Consts) (accept : Bool) (http_status : Int)
    (full : List Char) (w : World) (hst : http_status = 301 ∨ http_status = 302)
    (hbudget : u8 (w.cycle.pushRedirect + 255) ≠ 0)
    (hno : ¬ "Location: ".toList <:+: full) :
    httpPushCb K accept http_status full w =
      { w with cycle :=
          { pushState := w.cycle.pushState
            pushErrorDelay := u8 (K.PUSH_ERROR_DELAY + 1)
            pushRetries := u8 (w.cycle.pushRetries + 1)
            pushRedirect := u8 (w.cycle.pushRedirect + 255) } } := by
  have h200 : http_status ≠ 200 := by omega
  unfold httpPushCb
  simp only [if_neg h200, if_pos hst, if_neg hbudget, os_strstr_none _ full hno]

set_option maxRecDepth 1000000 in
/-- C7, an instance: budget 3, a 302 response without `Location: `. -/
theorem httpPushCb_redirect_without_location_witness :
    httpPushCb exampleConsts true 302
        "HTTP/1.1 302 Found\r\nContent-Length: 0\r\n\r\n".toList
        { bootWorld with cycle := PushCycle.mk PUSH_HTTPWAIT 0 0 3 } =
      { bootWorld with cycle := PushCycle.mk PUSH_HTTPWAIT 3 1 2 } :=
  httpPushCb_redirect_without_location exampleConsts true 302
    "HTTP/1.1 302 Found\r\nContent-Length: 0\r\n\r\n".toList
    { bootWorld with cycle := PushCycle.mk PUSH_HTTPWAIT 0 0 3 }
    (by decide) (by decide) (by decide)

set_option maxRecDepth 1000000 in
/-- C7, as stated, fails: with budget 3 a 302 response without `Location: `
leaves the state at HttpBackoff, arms the backoff and increments retryCount,
while the response which exhausts the budget (budget 1) advances the state
and touches neither counter; the two resulting push cycles differ. -/
theorem redirect_without_location_is_not_terminal :
    (httpPushCb exampleConsts true 302
        "HTTP/1.1 302 Found\r\nContent-Length: 0\r\n\r\n".toList
        { bootWorld with cycle := PushCycle.mk PUSH_HTTPWAIT 0 0 3 }).cycle
      = PushCycle.mk PUSH_HTTPWAIT 3 1 2 ∧
    (httpPushCb exampleConsts true 302
        "HTTP/1.1 302 Found\r\nContent-Length: 0\r\n\r\n".toList
        { bootWorld with cycle := PushCycle.mk PUSH_HTTPWAIT 0 0 1 }).cycle
      = PushCycle.mk PUSH_MQTTSTART 0 0 0 ∧
    ¬ ((httpPushCb exampleConsts true 302
          "HTTP/1.1 302 Found\r\nContent-Length: 0\r\n\r\n".toList
          { bootWorld with cycle := PushCycle.mk PUSH_HTTPWAIT 0 0 3 }).cycle.pushState
        = PUSH_HTTPWAIT + 1 ∧
      (httpPushCb exampleConsts true 302
          "HTTP/1.1 302 Found\r\nContent-Length: 0\r\n\r\n".toList
          { bootWorld with cycle := PushCycle.mk PUSH_HTTPWAIT 0 0 3 }).cycle.pushErrorDelay = 0 ∧
      (httpPushCb exampleConsts true 302
          "HTTP/1.1 302 Found\r\nContent-Length: 0\r\n\r\n".toList
          { bootWorld with cycle := PushCycle.mk PUSH_HTTPWAIT 0 0 3 }).cycle.pushRetries = 0) := by
  decide

/-! ### C8: leaving the MQTT stage -/

theorem mqttPublish_cycle (topic sub msg : List Char) (w w1 : World)
    (h : mqttPublish topic sub msg w = some w1) :
    w1.cycle = w.cycle ∧ w1.config = w.config ∧
      w1.pushTimeoutTimerArmed = w.pushTimeoutTimerArmed := by
  unfold mqttPublish at h
  split at h
  · simp at h
  · simp only [Option.some.injEq] at h
    subst h
    exact ⟨rfl, rfl, rfl⟩

theorem mqttPushCb_cycle (s : Sensors) (w w1 : World) (h : mqttPushCb s w = some w1) :
    w1.cycle = w.cycle ∧ w1.config = w.config ∧
      w1.pushTimeoutTimerArmed = w.pushTimeoutTimerArmed := by
  unfold mqttPushCb at h
  simp only [Option.bind_eq_some] at h
  obtain ⟨a, ha, b, hb, c, hc, d, hd, he⟩ := h
  have h1 := mqttPublish_cycle _ _ _ _ _ ha
  have h2 := mqttPublish_cycle _ _ _ _ _ hb
  have h3 := mqttPublish_cycle _ _ _ _ _ hc
  have h4 := mqttPublish_cycle _ _ _ _ _ hd
  have h5 := mqttPublish_cycle _ _ _ _ _ he
  refine ⟨?_, ?_, ?_⟩
  · rw [h5.1, h4.1, h3.1, h2.1, h1.1]
  · rw [h5.2.1, h4.2.1, h3.2.1, h2.2.1, h1.2.1]
  · rw [h5.2.2, h4.2.2, h3.2.2, h2.2.2, h1.2.2]

/-- C8 (as the code has it): from MqttBackoff a poll tick leaves the state in
MqttBackoff or moves it back to MqttSend, the on-timeout and on-connect
callbacks leave the state unchanged, and the on-publish callback which finds
the queue empty disconnects, deletes the client and moves the state to Finish;
an on-publish callback which finds the queue non-empty changes nothing at
all; and a tick in MqttSend moves to MqttBackoff when MQTT is enabled and
retryCount is below `PUSH_RETRIES_MAX - 1`, and straight to Finish otherwise. -/
theorem mqtt_stage_exit (K : Consts) (w : World) :
    (w.cycle.pushState = PUSH_MQTTWAIT →
      (∀ env : TickEnv, (pushTimerCb K env w).cycle.pushState = PUSH_MQTTWAIT ∨
        (pushTimerCb K env w).cycle.pushState = PUSH_MQTT) ∧
      (mqttErrorCb K w).cycle.pushState = PUSH_MQTTWAIT ∧
      (∀ (s : Sensors) (w1 : World), mqttPushCb s w = some w1 → w1.cycle = w.cycle) ∧
      (mqttPublishCb true w).cycle.pushState = PUSH_FINISH ∧
      (mqttPublishCb true w).log
        = Effect.MQTT_DeleteClient :: Effect.MQTT_Disconnect :: w.log) ∧
    mqttPublishCb false w = w ∧
    (w.cycle.pushState = PUSH_MQTT →
      ∀ env : TickEnv, (pushTimerCb K env w).cycle.pushState =
        if w.config.mqtt_enabled ≠ 0 ∧ w.cycle.pushRetries < K.PUSH_RETRIES_MAX - 1
        then PUSH_MQTTWAIT else PUSH_FINISH) := by
  refine ⟨?_, rfl, ?_⟩
  · intro hs
    refine ⟨?_, hs, fun s w1 h => (mqttPushCb_cycle s w w1 h).1, ?_, rfl⟩
    · intro env
      rw [pushTimerCb_cycle, pushSwitch_mqttwait K env w hs]
      split_ifs
      · right; rfl
      · left; exact hs
      · left; exact hs
    · show w.cycle.pushState + 1 = PUSH_FINISH
      rw [hs]
      rfl
  · intro hs env
    rw [pushTimerCb_cycle, pushSwitch_mqtt K env w hs, mqttPush_eq]
    simp only [World.emit, World.setState]
    split_ifs <;> simp_all

set_option maxRecDepth 1000000 in
/-- C8, an instance: in MqttBackoff the on-publish callback with an empty
queue moves to Finish, the tick does not; in MqttSend with the retries used up
the tick moves to Finish. -/
theorem mqtt_stage_exit_witness :
    (mqttPublishCb true (bootWorld.setState PUSH_MQTTWAIT)).cycle.pushState = PUSH_FINISH ∧
    ((pushTimerCb quickConsts envGood (bootWorld.setState PUSH_MQTTWAIT)).cycle.pushState
        = PUSH_MQTTWAIT ∨
      (pushTimerCb quickConsts envGood (bootWorld.setState PUSH_MQTTWAIT)).cycle.pushState
        = PUSH_MQTT) ∧
    (pushTimerCb quickConsts envGood
        { bootWorld with cycle := PushCycle.mk PUSH_MQTT 0 2 0 }).cycle.pushState
      = PUSH_FINISH :=
  ⟨((mqtt_stage_exit quickConsts (bootWorld.setState PUSH_MQTTWAIT)).1 rfl).2.2.2.1,
   ((mqtt_stage_exit quickConsts (bootWorld.setState PUSH_MQTTWAIT)).1 rfl).1 envGood,
   (mqtt_stage_exit quickConsts { bootWorld with cycle := PushCycle.mk PUSH_MQTT 0 2 0 }).2.2
      rfl envGood⟩

set_option maxRecDepth 1000000 in
/-- C8, as stated, fails: in this cycle MQTT is enabled and no on-publish
callback is ever delivered, yet after two timeouts the tick which starts the
third connect moves the state from MqttSend to Finish. -/
theorem mqtt_finish_without_publish :
    mqttTimeoutTrace.all (fun e => !e.isMqttPublished) = true ∧
    bootWorld.config.mqtt_enabled = 1 ∧
    (run quickConsts (pushSensorData quickConsts bootWorld) mqttTimeoutTrace).map
        (fun w => w.cycle.pushState) = some PUSH_MQTT ∧
    (run quickConsts (pushSensorData quickConsts bootWorld)
        (mqttTimeoutTrace ++ [Event.tick envGood])).map
        (fun w => (w.cycle.pushState, w.log.take 2))
      = some (PUSH_FINISH, [Effect.MQTT_Connect, Effect.MQTT_InitClient]) := by
  decide

/-! ### C9: every cycle is bounded by the timeout timer -/

theorem pushSwitch_watchdog (K : Consts) (env : TickEnv) (w : World) :
    (pushSwitch K env w).pushTimeoutTimerArmed = w.pushTimeoutTimerArmed ∧
      w.sleeps ≤ (pushSwitch K env w).sleeps := by
  have hcases := pushState_cases w.cycle.pushState
  rcases hcases with h | h | h | h | h | h | h | h | h | h | h | h
  · rw [pushSwitch_idle K env w h]; exact ⟨rfl, le_refl _⟩
  · rw [pushSwitch_init K env w h]
    split_ifs <;> simp [World.sleeps, World.emit, World.setState, List.countP_cons, Effect.isSleep]
  · rw [pushSwitch_read K env w h]
    split_ifs <;> simp [World.sleeps, World.emit, World.setState, List.countP_cons, Effect.isSleep]
  · rw [pushSwitch_ipwait K env w h]
    split_ifs <;> simp [World.sleeps, World.emit, World.setState, List.countP_cons, Effect.isSleep]
  · rw [pushSwitch_httpstart K env w h]
    simp [World.sleeps, World.emit, World.setState, List.countP_cons, Effect.isSleep]
  · rw [pushSwitch_http K env w h, httpPush_eq]
    simp only [World.emit, World.setState, http_get, World.sleeps]
    split_ifs <;> simp_all [List.countP_cons, Effect.isSleep]
  · rw [pushSwitch_httpwait K env w h]
    split_ifs <;> simp [World.sleeps, World.emit, World.setState, List.countP_cons, Effect.isSleep]
  · rw [pushSwitch_mqttstart K env w h]
    simp [World.sleeps, World.emit, World.setState, List.countP_cons, Effect.isSleep]
  · rw [pushSwitch_mqtt K env w h, mqttPush_eq]
    simp only [World.emit, World.setState, World.sleeps]
    split_ifs <;> simp_all [List.countP_cons, Effect.isSleep]
  · rw [pushSwitch_mqttwait K env w h]
    split_ifs <;> simp [World.sleeps, World.emit, World.setState, List.countP_cons, Effect.isSleep]
  · rw [pushSwitch_finish K env w h]
    split_ifs <;>
      simp [World.sleeps, World.emit, World.setState, List.countP_cons, Effect.isSleep, sleepmode]
  · rw [pushSwitch_default K env w h]
    simp [World.sleeps, World.setState]

theorem httpPushCb_watchdog (K : Consts) (accept : Bool) (status : Int) (full : List Char)
    (w : World) :
    (httpPushCb K accept status full w).pushTimeoutTimerArmed = w.pushTimeoutTimerArmed ∧
      (httpPushCb K accept status full w).sleeps = w.sleeps := by
  unfold httpPushCb
  simp only [http_get, World.sleeps]
  split_ifs <;> (try split) <;> (try split_ifs) <;>
    simp_all [List.countP_cons, Effect.isSleep]

theorem pushSwitch_config (K : Consts) (env : TickEnv) (w : World) :
    (pushSwitch K env w).config = w.config := by
  have hcases := pushState_cases w.cycle.pushState
  rcases hcases with h | h | h | h | h | h | h | h | h | h | h | h
  · rw [pushSwitch_idle K env w h]
  · rw [pushSwitch_init K env w h]; split_ifs <;> rfl
  · rw [pushSwitch_read K env w h]; split_ifs <;> rfl
  · rw [pushSwitch_ipwait K env w h]; split_ifs <;> rfl
  · rw [pushSwitch_httpstart K env w h]; rfl
  · rw [pushSwitch_http K env w h, httpPush_eq]
    simp only [World.emit, World.setState, http_get]
    split_ifs <;> simp_all
  · rw [pushSwitch_httpwait K env w h]; split_ifs <;> rfl
  · rw [pushSwitch_mqttstart K env w h]; rfl
  · rw [pushSwitch_mqtt K env w h, mqttPush_eq]
    simp only [World.emit, World.setState]
    split_ifs <;> simp_all
  · rw [pushSwitch_mqttwait K env w h]; split_ifs <;> rfl
  · rw [pushSwitch_finish K env w h]; split_ifs <;> rfl
  · rw [pushSwitch_default K env w h]; rfl

theorem httpPushCb_mqtt_topic (K : Consts) (accept : Bool) (status : Int) (full : List Char)
    (w : World) :
    (httpPushCb K accept status full w).config.mqtt_topic = w.config.mqtt_topic := by
  unfold httpPushCb
  simp only [http_get]
  split_ifs <;> (try split) <;> (try split_ifs) <;> simp_all

theorem mqttPushCb_defined (s : Sensors) (w : World) (ht : NUL ∉ w.config.mqtt_topic)
    (hlen : w.config.mqtt_topic.length ≤ 115) :
    ∃ w1, mqttPushCb s w = some w1 ∧ w1.sleeps = w.sleeps := by
  unfold mqttPushCb
  rw [mqttPublish_of_fit _ _ _ _ ht (by decide)
    (by have : "temperature".toList.length = 11 := rfl
        omega)]
  simp only [Option.some_bind, World.emit]
  rw [mqttPublish_of_fit _ _ _ _ ht (by decide)
    (by have : "humidity".toList.length = 8 := rfl
        omega)]
  simp only [Option.some_bind, World.emit]
  rw [mqttPublish_of_fit _ _ _ _ ht (by decide)
    (by have : "pressure".toList.length = 8 := rfl
        omega)]
  simp only [Option.some_bind, World.emit]
  rw [mqttPublish_of_fit _ _ _ _ ht (by decide)
    (by have : "battery".toList.length = 7 := rfl
        omega)]
  simp only [Option.some_bind, World.emit]
  rw [mqttPublish_of_fit _ _ _ _ ht (by decide)
    (by have : "rssi".toList.length = 4 := rfl
        omega)]
  refine ⟨_, rfl, ?_⟩
  simp [World.sleeps, World.emit, List.countP_cons, Effect.isSleep]

theorem pushTimerCb_sleeps (K : Consts) (env : TickEnv) (w : World) :
    (pushTimerCb K env w).sleeps = (pushSwitch K env w).sleeps := by
  unfold World.sleeps
  rw [pushTimerCb_log]

theorem WdInv_step (K : Consts) (n0 : Nat) (topic : List Char) (w : World) (e : Event)
    (ht : NUL ∉ topic) (hlen : topic.length ≤ 115) (h : WdInv n0 topic w) :
    ∃ w1, step K w e = some w1 ∧ WdInv n0 topic w1 ∧ w.sleeps ≤ w1.sleeps ∧
      (e.isTimeout = true → n0 < w1.sleeps) := by
  obtain ⟨htop, hn, harm⟩ := h
  cases e with
  | tick env =>
    refine ⟨_, rfl, ?_, ?_, by simp [Event.isTimeout]⟩
    · split_ifs
      · have hw := pushSwitch_watchdog K env { w with pushTimerArmed := false }
        have hc := pushSwitch_config K env { w with pushTimerArmed := false }
        refine ⟨?_, ?_, ?_⟩
        · rw [pushTimerCb_config, hc]; exact htop
        · rw [pushTimerCb_sleeps]; exact le_trans hn hw.2
        · rw [pushTimerCb_pushTimeoutTimerArmed, pushTimerCb_sleeps, hw.1]
          rcases harm with ha | ha
          · left; exact ha
          · right; exact lt_of_lt_of_le ha hw.2
      · exact ⟨htop, hn, harm⟩
    · split_ifs
      · rw [pushTimerCb_sleeps]
        exact (pushSwitch_watchdog K env { w with pushTimerArmed := false }).2
      · exact le_refl _
  | httpResponse st full acc =>
    have hw := httpPushCb_watchdog K acc st full { w with httpOutstanding := w.httpOutstanding - 1 }
    have hc := httpPushCb_mqtt_topic K acc st full
      { w with httpOutstanding := w.httpOutstanding - 1 }
    refine ⟨_, rfl, ⟨?_, ?_, ?_⟩, ?_, by simp [Event.isTimeout]⟩
    · rw [hc]; exact htop
    · rw [hw.2]; exact hn
    · rw [hw.1, hw.2]; exact harm
    · rw [hw.2]; exact le_refl _
  | mqttConnected s =>
    obtain ⟨w1, hw1, hs1⟩ := mqttPushCb_defined s w (by rw [htop]; exact ht)
      (by rw [htop]; exact hlen)
    obtain ⟨_, hcfg, harm1⟩ := mqttPushCb_cycle s w w1 hw1
    refine ⟨w1, hw1, ⟨?_, ?_, ?_⟩, ?_, by simp [Event.isTimeout]⟩
    · rw [hcfg]; exact htop
    · rw [hs1]; exact hn
    · rw [harm1, hs1]; exact harm
    · rw [hs1]
  | mqttPublished q =>
    refine ⟨_, rfl, ?_, ?_, by simp [Event.isTimeout]⟩
    · unfold mqttPublishCb
      split_ifs
      · exact ⟨htop, by simpa [World.sleeps, World.emit, List.countP_cons, Effect.isSleep] using hn,
          by simpa [World.sleeps, World.emit, List.countP_cons, Effect.isSleep] using harm⟩
      · exact ⟨htop, hn, harm⟩
    · unfold mqttPublishCb
      split_ifs <;> simp [World.sleeps, World.emit, List.countP_cons, Effect.isSleep]
  | mqttTimeout =>
    refine ⟨_, rfl, ?_, ?_, by simp [Event.isTimeout]⟩
    · exact ⟨htop, by simpa [mqttErrorCb, World.sleeps, World.emit, List.countP_cons,
          Effect.isSleep] using hn,
        by simpa [mqttErrorCb, World.sleeps, World.emit, List.countP_cons, Effect.isSleep]
          using harm⟩
    · simp [mqttErrorCb, World.sleeps, World.emit, List.countP_cons, Effect.isSleep]
  | timeout =>
    refine ⟨_, rfl, ?_⟩
    by_cases ha : w.pushTimeoutTimerArmed = true
    · simp only [ha, if_true]
      have hs : (pushTimeoutCb { w with pushTimeoutTimerArmed := false }).sleeps
          = w.sleeps + 1 := by
        simp [pushTimeoutCb, sleepmode, World.sleeps, World.emit, List.countP_cons,
          Effect.isSleep]
      refine ⟨⟨htop, by omega, Or.inr (by omega)⟩, by omega, fun _ => by omega⟩
    · simp only [ha]
      have hlt : n0 < w.sleeps := by
        rcases harm with h | h
        · exact absurd h ha
        · exact h
      exact ⟨⟨htop, hn, Or.inr hlt⟩, le_refl _, fun _ => hlt⟩

theorem WdInv_run (K : Consts) (n0 : Nat) (topic : List Char) (ht : NUL ∉ topic)
    (hlen : topic.length ≤ 115) :
    ∀ (evs : List Event) (w : World), WdInv n0 topic w →
      ∃ w1, run K w evs = some w1 ∧ WdInv n0 topic w1 ∧ w.sleeps ≤ w1.sleeps ∧
        (evs.any Event.isTimeout = true → n0 < w1.sleeps) := by
  intro evs
  induction evs with
  | nil => intro w h; exact ⟨w, rfl, h, le_refl _, by simp⟩
  | cons e es ih =>
    intro w h
    obtain ⟨w1, hstep, hinv1, hmono1, hto1⟩ := WdInv_step K n0 topic w e ht hlen h
    obtain ⟨w2, hrun, hinv2, hmono2, hto2⟩ := ih w1 hinv1
    refine ⟨w2, by simp [run, hstep, hrun], hinv2, le_trans hmono1 hmono2, ?_⟩
    intro hany
    simp only [List.any_cons, Bool.or_eq_true] at hany
    rcases hany with h1 | h2
    · exact lt_of_lt_of_le (hto1 h1) hmono2
    · exact hto2 h2

/-- C9: for every sequence of events delivered after `pushSensorData` (poll
ticks with any sensor, network and transport outcomes, HTTP responses, MQTT
on-connect, on-publish and on-timeout callbacks, the timeout timer; callbacks
may be missing altogether), the execution is defined, and at its end the
timeout timer is still armed or a deep sleep has been requested since the
cycle started; once the timeout timer has fired, a deep sleep has been
requested; and a tick in Finish resets the state to Idle and requests the deep
sleep unless the device is in its first start.  The MQTT topic is assumed to
fit the buffer of `mqttPublish`. -/
theorem cycle_ends_in_sleep (K : Consts) (w0 : World) (evs : List Event)
    (ht : NUL ∉ w0.config.mqtt_topic) (hlen : w0.config.mqtt_topic.length ≤ 115) :
    ∃ w, run K (pushSensorData K w0) evs = some w ∧
      (w.pushTimeoutTimerArmed = true ∨ w0.sleeps < w.sleeps) ∧
      (evs.any Event.isTimeout = true → w0.sleeps < w.sleeps) ∧
      (∀ env : TickEnv, w.cycle.pushState = PUSH_FINISH →
        (pushTimerCb K env w).cycle.pushState = PUSH_IDLE ∧
        (env.configIsFirstStart = false → (pushTimerCb K env w).sleeps = w.sleeps + 1)) := by
  have hstart : WdInv w0.sleeps w0.config.mqtt_topic (pushSensorData K w0) := by
    refine ⟨rfl, ?_, Or.inl rfl⟩
    simp [pushSensorData, pushTimeout, pushTimer, World.emit, World.sleeps, List.countP_cons,
      Effect.isSleep]
  obtain ⟨w, hrun, hinv, _, hto⟩ := WdInv_run K _ _ ht hlen evs _ hstart
  refine ⟨w, hrun, hinv.2.2, hto, ?_⟩
  intro env hs
  rw [pushTimerCb_cycle, pushTimerCb_sleeps, pushSwitch_finish K env w hs]
  refine ⟨by split_ifs <;> rfl, ?_⟩
  intro hfs
  simp [hfs, sleepmode, World.sleeps, World.emit, World.setState, List.countP_cons, Effect.isSleep]

set_option maxRecDepth 1000000 in
/-- C9, an instance: the station never gets an address, the sequencer waits
in AwaitNetwork, and the timeout requests the deep sleep of 600 seconds. -/
theorem cycle_ends_in_sleep_witness :
    (run exampleConsts (pushSensorData exampleConsts bootWorld) stuckTrace).map
        (fun w => (w.cycle.pushState, w.log.head?))
      = some (PUSH_IPWAIT, some (Effect.system_deep_sleep 600000000)) ∧
    ∃ w, run exampleConsts (pushSensorData exampleConsts bootWorld) stuckTrace = some w ∧
      (w.pushTimeoutTimerArmed = true ∨ bootWorld.sleeps < w.sleeps) ∧
      (stuckTrace.any Event.isTimeout = true → bootWorld.sleeps < w.sleeps) ∧
      (∀ env : TickEnv, w.cycle.pushState = PUSH_FINISH →
        (pushTimerCb exampleConsts env w).cycle.pushState = PUSH_IDLE ∧
        (env.configIsFirstStart = false →
          (pushTimerCb exampleConsts env w).sleeps = w.sleeps + 1)) :=
  ⟨by decide, cycle_ends_in_sleep exampleConsts bootWorld stuckTrace (by decide) (by decide)⟩

/-! ### C10: the order of the states -/

theorem pushSwitch_in_range (K : Consts) (env : TickEnv) (w : World)
    (hr : w.cycle.pushState ≤ PUSH_FINISH) :
    (pushSwitch K env w).cycle.pushState ≤ PUSH_FINISH := by
  have hcases := pushState_cases w.cycle.pushState
  rcases hcases with h | h | h | h | h | h | h | h | h | h | h | h
  · rw [pushSwitch_idle K env w h]; exact hr
  · rw [pushSwitch_init K env w h]
    split_ifs <;> simp [World.setState, World.emit, PUSH_FINISH, PUSH_READ]
  · rw [pushSwitch_read K env w h]
    split_ifs <;> simp [World.setState, World.emit, h, PUSH_READ, PUSH_IPWAIT, PUSH_FINISH]
  · rw [pushSwitch_ipwait K env w h]
    split_ifs <;> simp [World.setState, h, PUSH_IPWAIT, PUSH_HTTPSTART, PUSH_FINISH]
  · rw [pushSwitch_httpstart K env w h]
    simp [World.setState, PUSH_FINISH, PUSH_HTTP]
  · rw [pushSwitch_http K env w h]
    split_ifs <;> simp [World.setState, PUSH_HTTPWAIT, PUSH_MQTTSTART, PUSH_FINISH]
  · rw [pushSwitch_httpwait K env w h]
    split_ifs <;> simp [World.setState, World.emit, h, PUSH_HTTP, PUSH_HTTPWAIT, PUSH_FINISH]
  · rw [pushSwitch_mqttstart K env w h]
    simp [World.setState, PUSH_FINISH, PUSH_MQTT]
  · rw [pushSwitch_mqtt K env w h]
    split_ifs <;> simp [World.setState, PUSH_MQTTWAIT, PUSH_FINISH]
  · rw [pushSwitch_mqttwait K env w h]
    split_ifs <;> simp [World.setState, World.emit, h, PUSH_MQTT, PUSH_MQTTWAIT, PUSH_FINISH]
  · rw [pushSwitch_finish K env w h]
    split_ifs <;> simp [World.setState, PUSH_IDLE, PUSH_FINISH]
  · rw [pushSwitch_default K env w h]
    simp [World.setState, PUSH_IDLE, PUSH_FINISH]

theorem pushSwitch_ordered (K : Consts) (env : TickEnv) (w : World)
    (hr : w.cycle.pushState ≤ PUSH_FINISH) :
    OrderedMove w.cycle.pushState (pushSwitch K env w).cycle.pushState := by
  refine ⟨hr, pushSwitch_in_range K env w hr, ?_⟩
  have hcases := pushState_cases w.cycle.pushState
  rcases hcases with h | h | h | h | h | h | h | h | h | h | h | h
  · rw [pushSwitch_idle K env w h]; left; rfl
  · rw [pushSwitch_init K env w h]
    split_ifs <;> simp [World.setState, World.emit, h, PUSH_INIT, PUSH_FINISH, PUSH_READ]
  · rw [pushSwitch_read K env w h]
    split_ifs <;> simp [World.setState, World.emit, h, PUSH_READ, PUSH_IPWAIT]
  · rw [pushSwitch_ipwait K env w h]
    split_ifs <;> simp [World.setState, h, PUSH_IPWAIT, PUSH_HTTPSTART]
  · rw [pushSwitch_httpstart K env w h]
    simp [World.setState, h, PUSH_HTTPSTART, PUSH_HTTP]
  · rw [pushSwitch_http K env w h]
    split_ifs <;> simp [World.setState, h, PUSH_HTTP, PUSH_HTTPWAIT, PUSH_MQTTSTART]
  · rw [pushSwitch_httpwait K env w h]
    split_ifs <;> simp [World.setState, World.emit, h, PUSH_HTTP, PUSH_HTTPWAIT]
  · rw [pushSwitch_mqttstart K env w h]
    simp [World.setState, h, PUSH_MQTTSTART, PUSH_MQTT]
  · rw [pushSwitch_mqtt K env w h]
    split_ifs <;> simp [World.setState, h, PUSH_MQTT, PUSH_MQTTWAIT, PUSH_FINISH]
  · rw [pushSwitch_mqttwait K env w h]
    split_ifs <;> simp [World.setState, World.emit, h, PUSH_MQTT, PUSH_MQTTWAIT]
  · rw [pushSwitch_finish K env w h]
    split_ifs <;> simp [World.setState, h, PUSH_IDLE]
  · exact absurd hr (not_le_of_lt h)

theorem httpPushCb_pushState (K : Consts) (accept : Bool) (status : Int) (full : List Char)
    (w : World) :
    (httpPushCb K accept status full w).cycle.pushState =
      if status = 200 ∨
          ((status = 301 ∨ status = 302) ∧ u8 (w.cycle.pushRedirect + 255) = 0) then
        w.cycle.pushState + 1
      else w.cycle.pushState := by
  unfold httpPushCb
  simp only [http_get]
  split_ifs <;> (try split) <;> (try split_ifs) <;> simp_all

theorem mqttPublishCb_pushState (queueEmpty : Bool) (w : World) :
    (mqttPublishCb queueEmpty w).cycle.pushState =
      if queueEmpty = true then w.cycle.pushState + 1 else w.cycle.pushState := by
  unfold mqttPublishCb
  split_ifs <;> rfl

theorem mqttErrorCb_pushState (K : Consts) (w : World) :
    (mqttErrorCb K w).cycle.pushState = w.cycle.pushState := rfl

theorem orderedMove_succ (s : Nat) (h : s < PUSH_FINISH) : OrderedMove s (s + 1) :=
  ⟨le_of_lt h, h, Or.inr (Or.inl (Nat.lt_succ_self s))⟩

theorem orderedMove_self (s : Nat) (h : s ≤ PUSH_FINISH) : OrderedMove s s :=
  ⟨h, h, Or.inl rfl⟩

theorem not_orderedMove_past_finish (s : Nat) : ¬ OrderedMove s (PUSH_FINISH + 1) :=
  fun h => absurd h.2.1 (Nat.not_succ_le_self PUSH_FINISH)

set_option maxRecDepth 1000000 in
/-- C10 (what the code does): take the states in the order Idle, Init,
ReadSensors, AwaitNetwork, HttpSetup, HttpSend, HttpBackoff, MqttSetup,
MqttSend, MqttBackoff, Finish, and call a move allowed when it goes from one
of the eleven states to one of them and is no move, a move to a later state,
HttpBackoff to HttpSend, MqttBackoff to MqttSend, or Finish to Idle.  A poll
tick makes an allowed move from every one of the eleven states, and each of
the three backward moves does occur.  An HTTP response, an MQTT on-publish
callback and an MQTT on-timeout callback make an allowed move from every
state before Finish.  In Finish the on-timeout callback leaves the state as
it is, but the on-publish callback with an empty queue, the HTTP response
with status 200 and the redirect response which uses up the budget increment
the state to the value after Finish, which is none of the eleven states: no
allowed move. -/
theorem state_order_invariant (K : Consts) (env : TickEnv) (accept : Bool) (http_status : Int)
    (full_response : List Char) (queueEmpty : Bool) (w : World) :
    (w.cycle.pushState ≤ PUSH_FINISH →
      OrderedMove w.cycle.pushState (pushTimerCb K env w).cycle.pushState) ∧
    (pushTimerCb exampleConsts envGood
        { bootWorld with cycle := PushCycle.mk PUSH_HTTPWAIT 1 1 0 }).cycle.pushState
      = PUSH_HTTP ∧
    (pushTimerCb exampleConsts envGood
        { bootWorld with cycle := PushCycle.mk PUSH_MQTTWAIT 1 1 0 }).cycle.pushState
      = PUSH_MQTT ∧
    (pushTimerCb exampleConsts envGood (bootWorld.setState PUSH_FINISH)).cycle.pushState
      = PUSH_IDLE ∧
    (w.cycle.pushState < PUSH_FINISH →
      OrderedMove w.cycle.pushState
        (httpPushCb K accept http_status full_response w).cycle.pushState ∧
      OrderedMove w.cycle.pushState (mqttPublishCb queueEmpty w).cycle.pushState ∧
      OrderedMove w.cycle.pushState (mqttErrorCb K w).cycle.pushState) ∧
    (w.cycle.pushState = PUSH_FINISH →
      OrderedMove w.cycle.pushState (mqttErrorCb K w).cycle.pushState ∧
      (mqttPublishCb queueEmpty w).cycle.pushState
        = (if queueEmpty = true then PUSH_FINISH + 1 else PUSH_FINISH) ∧
      (OrderedMove w.cycle.pushState (mqttPublishCb queueEmpty w).cycle.pushState
        ↔ queueEmpty = false) ∧
      (httpPushCb K accept http_status full_response w).cycle.pushState
        = (if http_status = 200 ∨ ((http_status = 301 ∨ http_status = 302) ∧
              u8 (w.cycle.pushRedirect + 255) = 0)
            then PUSH_FINISH + 1 else PUSH_FINISH) ∧
      (OrderedMove w.cycle.pushState
          (httpPushCb K accept http_status full_response w).cycle.pushState
        ↔ ¬ (http_status = 200 ∨ ((http_status = 301 ∨ http_status = 302) ∧
              u8 (w.cycle.pushRedirect + 255) = 0)))) := by
  refine ⟨?_, by decide, by decide, by decide, ?_, ?_⟩
  · intro hr
    rw [pushTimerCb_cycle]
    exact pushSwitch_ordered K env w hr
  · intro hr
    rw [httpPushCb_pushState, mqttPublishCb_pushState, mqttErrorCb_pushState]
    refine ⟨?_, ?_, orderedMove_self _ (le_of_lt hr)⟩
    · split_ifs
      · exact orderedMove_succ _ hr
      · exact orderedMove_self _ (le_of_lt hr)
    · split_ifs
      · exact orderedMove_succ _ hr
      · exact orderedMove_self _ (le_of_lt hr)
  · intro hs
    rw [httpPushCb_pushState, mqttPublishCb_pushState, mqttErrorCb_pushState, hs]
    refine ⟨orderedMove_self _ (le_refl _), rfl, ?_, rfl, ?_⟩
    · cases queueEmpty with
      | true =>
        rw [if_pos rfl]
        exact ⟨fun h => absurd h (not_orderedMove_past_finish _), fun h => by cases h⟩
      | false =>
        rw [if_neg (by decide)]
        exact ⟨fun _ => rfl, fun _ => orderedMove_self _ (le_refl _)⟩
    · split_ifs with hc
      · exact ⟨fun h => absurd h (not_orderedMove_past_finish _), fun h => absurd hc h⟩
      · exact ⟨fun _ => hc, fun _ => orderedMove_self _ (le_refl _)⟩

set_option maxRecDepth 1000000 in
/-- C10, instances: the tick in Finish makes the allowed move to Idle; in
HttpBackoff the HTTP response with status 200 makes the allowed move to
MqttSetup; and at the end of `lateResponseTrace` without its last event the
sequencer is in Finish with an HTTP request outstanding, where the response
with status 200 moves the state to 11, which is no allowed move. -/
theorem state_order_invariant_witness :
    OrderedMove PUSH_FINISH PUSH_IDLE ∧
    OrderedMove PUSH_HTTPWAIT PUSH_MQTTSTART ∧
    (run quickConsts (pushSensorData quickConsts bootWorld) lateResponseTrace.dropLast).isSome
      = true ∧
    (finishWithRequestOutstanding.cycle.pushState, finishWithRequestOutstanding.httpOutstanding)
      = (PUSH_FINISH, 1) ∧
    (httpPushCb quickConsts true 200 "HTTP/1.1 200 OK\r\n\r\n".toList
        finishWithRequestOutstanding).cycle.pushState = 11 ∧
    ¬ OrderedMove PUSH_FINISH
        (httpPushCb quickConsts true 200 "HTTP/1.1 200 OK\r\n\r\n".toList
          finishWithRequestOutstanding).cycle.pushState :=
  ⟨(state_order_invariant exampleConsts envGood true 200 "HTTP/1.1 200 OK\r\n\r\n".toList
      true (bootWorld.setState PUSH_FINISH)).1 (by decide),
   ((state_order_invariant exampleConsts envGood true 200 "HTTP/1.1 200 OK\r\n\r\n".toList
      true (bootWorld.setState PUSH_HTTPWAIT)).2.2.2.2.1 (by decide)).1,
   by decide, by decide,
   ((state_order_invariant quickConsts envGood true 200 "HTTP/1.1 200 OK\r\n\r\n".toList
      true finishWithRequestOutstanding).2.2.2.2.2 (by decide)).2.2.2.1,
   fun h => ((state_order_invariant quickConsts envGood true 200
      "HTTP/1.1 200 OK\r\n\r\n".toList true finishWithRequestOutstanding).2.2.2.2.2
        (by decide)).2.2.2.2.mp h (Or.inl rfl)⟩

/-! ### C11: the timeout callback -/

theorem sleepmode_eq (w : World) :
    sleepmode w =
      { w with log := Effect.system_deep_sleep (deepSleepTime w.config.sensor_interval) :: w.log } :=
  rfl

theorem deepSleepTime_exact (n : Nat) (h : n ≤ 2147) : deepSleepTime n = (n : Int) * 1000000 := by
  unfold deepSleepTime wrapInt32 u16
  have h1 : n % 65536 = n := Nat.mod_eq_of_lt (by omega)
  rw [h1]
  omega

/-- C11: in every state and for every value of the three counters, the
timeout callback `pushTimeoutCb` does one thing only: it records a single
`system_deep_sleep`, whose argument is computed by `sleepmode` from the
sensor interval configured at that moment (for intervals up to 2147 seconds
it is the interval times 1,000,000).  The push cycle is neither read (the
result is the same function of the rest of the world for any cycle) nor
changed, the configuration and the pending HTTP requests are unchanged, and
no MQTT disconnect or delete is recorded. -/
theorem pushTimeoutCb_forces_sleep (w : World) :
    pushTimeoutCb w =
      { w with log := Effect.system_deep_sleep (deepSleepTime w.config.sensor_interval) :: w.log } ∧
    (pushTimeoutCb w).cycle = w.cycle ∧
    (∀ c : PushCycle, pushTimeoutCb { w with cycle := c } = { pushTimeoutCb w with cycle := c }) ∧
    (w.config.sensor_interval ≤ 2147 →
      deepSleepTime w.config.sensor_interval = (w.config.sensor_interval : Int) * 1000000) ∧
    (pushTimeoutCb w).log.count Effect.MQTT_Disconnect = w.log.count Effect.MQTT_Disconnect ∧
    (pushTimeoutCb w).log.count Effect.MQTT_DeleteClient
      = w.log.count Effect.MQTT_DeleteClient := by
  refine ⟨rfl, rfl, fun _ => rfl, deepSleepTime_exact _, ?_, ?_⟩
  · simp [pushTimeoutCb, sleepmode_eq, List.count_cons]
  · simp [pushTimeoutCb, sleepmode_eq, List.count_cons]

set_option maxRecDepth 1000000 in
/-- C11, an instance: in MqttBackoff with an interval of 600 seconds the
timeout requests a deep sleep of 600,000,000 microseconds and leaves the
cycle as it was. -/
theorem pushTimeoutCb_forces_sleep_witness :
    pushTimeoutCb { bootWorld with cycle := PushCycle.mk PUSH_MQTTWAIT 2 1 3 } =
      { bootWorld with
        cycle := PushCycle.mk PUSH_MQTTWAIT 2 1 3
        log := [Effect.system_deep_sleep 600000000] } ∧
    deepSleepTime 600 = 600 * 1000000 :=
  ⟨(pushTimeoutCb_forces_sleep { bootWorld with cycle := PushCycle.mk PUSH_MQTTWAIT 2 1 3 }).1,
   (pushTimeoutCb_forces_sleep { bootWorld with cycle := PushCycle.mk PUSH_MQTTWAIT 2 1 3 }).2.2.2.1
    (by decide)⟩
/-! ### C12: the failure update of both stages -/

theorem httpPushCb_failure (K : Consts) (accept : Bool) (http_status : Int) (full : List Char)
    (w : World) (h200 : http_status ≠ 200) (h301 : http_status ≠ 301) (h302 : http_status ≠ 302) :
    httpPushCb K accept http_status full w =
      { w with cycle := { w.cycle with
          pushErrorDelay := u8 (K.PUSH_ERROR_DELAY + 1)
          pushRetries := u8 (w.cycle.pushRetries + 1) } } := by
  have h3 : ¬ (http_status = 301 ∨ http_status = 302) := by omega
  unfold httpPushCb
  rw [if_neg h200, if_neg h3]

/-- C12: the MQTT on-timeout callback and the HTTP callback with a status
other than 200, 301 and 302 leave the same push cycle: the state and
redirectsRemaining as they were, errorDelayTicks set to `PUSH_ERROR_DELAY + 1`
and retryCount incremented by one, both as `uint8_t` values (so exactly
`PUSH_ERROR_DELAY + 1` and `retryCount + 1` whenever these are below 256).
`mqttErrorCb` records one `MQTT_Disconnect` and then one `MQTT_DeleteClient`,
the HTTP callback records nothing. -/
theorem failure_backoff_same (K : Consts) (accept : Bool) (http_status : Int)
    (full : List Char) (w : World)
    (h200 : http_status ≠ 200) (h301 : http_status ≠ 301) (h302 : http_status ≠ 302) :
    (mqttErrorCb K w).cycle = (httpPushCb K accept http_status full w).cycle ∧
    (mqttErrorCb K w).cycle =
      { pushState := w.cycle.pushState
        pushErrorDelay := u8 (K.PUSH_ERROR_DELAY + 1)
        pushRetries := u8 (w.cycle.pushRetries + 1)
        pushRedirect := w.cycle.pushRedirect } ∧
    (K.PUSH_ERROR_DELAY + 1 < 256 →
      (mqttErrorCb K w).cycle.pushErrorDelay = K.PUSH_ERROR_DELAY + 1) ∧
    (w.cycle.pushRetries + 1 < 256 →
      (mqttErrorCb K w).cycle.pushRetries = w.cycle.pushRetries + 1) ∧
    (mqttErrorCb K w).log = Effect.MQTT_DeleteClient :: Effect.MQTT_Disconnect :: w.log ∧
    (httpPushCb K accept http_status full w).log = w.log := by
  rw [httpPushCb_failure K accept http_status full w h200 h301 h302]
  refine ⟨rfl, rfl, ?_, ?_, rfl, rfl⟩
  · intro h
    exact Nat.mod_eq_of_lt h
  · intro h
    exact Nat.mod_eq_of_lt h

set_option maxRecDepth 1000000 in
/-- C12, an instance: in the backoff state with retryCount 1 and
`PUSH_ERROR_DELAY = 2`, status 500 and the MQTT timeout both give an error
delay of 3 and a retryCount of 2. -/
theorem failure_backoff_same_witness :
    (mqttErrorCb exampleConsts { bootWorld with cycle := PushCycle.mk PUSH_MQTTWAIT 0 1 3 }).cycle
      = PushCycle.mk PUSH_MQTTWAIT 3 2 3 ∧
    (httpPushCb exampleConsts true 500 "HTTP/1.1 500 Internal Server Error\r\n\r\n".toList
        { bootWorld with cycle := PushCycle.mk PUSH_MQTTWAIT 0 1 3 }).cycle
      = PushCycle.mk PUSH_MQTTWAIT 3 2 3 :=
  ⟨(failure_backoff_same exampleConsts true 500
      "HTTP/1.1 500 Internal Server Error\r\n\r\n".toList
      { bootWorld with cycle := PushCycle.mk PUSH_MQTTWAIT 0 1 3 }
      (by decide) (by decide) (by decide)).2.1,
   ((failure_backoff_same exampleConsts true 500
      "HTTP/1.1 500 Internal Server Error\r\n\r\n".toList
      { bootWorld with cycle := PushCycle.mk PUSH_MQTTWAIT 0 1 3 }
      (by decide) (by decide) (by decide)).1).symm.trans
    (failure_backoff_same exampleConsts true 500
      "HTTP/1.1 500 Internal Server Error\r\n\r\n".toList
      { bootWorld with cycle := PushCycle.mk PUSH_MQTTWAIT 0 1 3 }
      (by decide) (by decide) (by decide)).2.1⟩
/-! ### C13: the ticks in the send states -/

theorem httpPush_returns (env : TickEnv) (w : World) :
    ((httpPush env w).1 = 0 ↔ (u8 w.config.http_enabled ≠ 0 ∧ env.http_get = true)) ∧
    ((httpPush env w).1 = 0 ∨ (httpPush env w).1 = 1) ∧
    (httpPush env w).2.cycle = w.cycle ∧
    (httpPush env w).2.httpPushCalls = w.httpPushCalls + 1 := by
  rw [httpPush_eq]
  unfold World.httpPushCalls
  split_ifs <;> simp_all [World.emit, http_get, List.count_cons]

theorem mqttPush_returns (w : World) :
    ((mqttPush w).1 = 0 ↔ w.config.mqtt_enabled ≠ 0) ∧
    ((mqttPush w).1 = 0 ∨ (mqttPush w).1 = 1) ∧
    (mqttPush w).2.cycle = w.cycle := by
  rw [mqttPush_eq]
  split_ifs <;> simp_all [World.emit]

theorem retries_lt_int (r m : Nat) : ((r : Int) < (m : Int) - 1) ↔ r < m - 1 := by
  omega

/-- C13: a tick in HttpSend enters `httpPush` once; the state becomes
HttpBackoff exactly when `httpPush` returns 0 (HTTP enabled and the request
accepted) and retryCount < `PUSH_RETRIES_MAX - 1` (compared as C `int`s), and
MqttSetup, two states on, in every other case; retryCount and errorDelayTicks
are unchanged either way.  A tick in MqttSend moves to MqttBackoff exactly
when `mqttPush` returns 0 (MQTT enabled) and retryCount <
`PUSH_RETRIES_MAX - 1`, and to Finish otherwise. -/
theorem send_state_transition (K : Consts) (env : TickEnv) (w : World) :
    (w.cycle.pushState = PUSH_HTTP →
      (pushTimerCb K env w).httpPushCalls = w.httpPushCalls + 1 ∧
      ((pushTimerCb K env w).cycle.pushState = PUSH_HTTPWAIT ↔
        ((u8 w.config.http_enabled ≠ 0 ∧ env.http_get = true) ∧
          (w.cycle.pushRetries : Int) < (K.PUSH_RETRIES_MAX : Int) - 1)) ∧
      ((pushTimerCb K env w).cycle.pushState = PUSH_MQTTSTART ↔
        ¬ ((u8 w.config.http_enabled ≠ 0 ∧ env.http_get = true) ∧
          (w.cycle.pushRetries : Int) < (K.PUSH_RETRIES_MAX : Int) - 1)) ∧
      (pushTimerCb K env w).cycle.pushRetries = w.cycle.pushRetries ∧
      (pushTimerCb K env w).cycle.pushErrorDelay = w.cycle.pushErrorDelay) ∧
    (∀ w1 : World, (httpPush env w1).1 = 0 ↔
      (u8 w1.config.http_enabled ≠ 0 ∧ env.http_get = true)) ∧
    (w.cycle.pushState = PUSH_MQTT →
      ((pushTimerCb K env w).cycle.pushState = PUSH_MQTTWAIT ↔
        (w.config.mqtt_enabled ≠ 0 ∧
          (w.cycle.pushRetries : Int) < (K.PUSH_RETRIES_MAX : Int) - 1)) ∧
      ((pushTimerCb K env w).cycle.pushState = PUSH_FINISH ↔
        ¬ (w.config.mqtt_enabled ≠ 0 ∧
          (w.cycle.pushRetries : Int) < (K.PUSH_RETRIES_MAX : Int) - 1)) ∧
      (pushTimerCb K env w).cycle.pushRetries = w.cycle.pushRetries ∧
      (pushTimerCb K env w).cycle.pushErrorDelay = w.cycle.pushErrorDelay) ∧
    (∀ w1 : World, (mqttPush w1).1 = 0 ↔ w1.config.mqtt_enabled ≠ 0) := by
  refine ⟨?_, fun w1 => (httpPush_returns env w1).1, ?_, fun w1 => (mqttPush_returns w1).1⟩
  · intro hs
    obtain ⟨⟨s, d, r, rd⟩, cfg, ta, tta, p, log⟩ := w
    simp only [retries_lt_int]
    unfold World.httpPushCalls
    rw [pushTimerCb_cycle, pushTimerCb_log, pushSwitch_http K env _ hs, httpPush_eq]
    simp only [World.emit, World.setState, http_get, PUSH_HTTPWAIT, PUSH_MQTTSTART]
    split_ifs <;> simp_all [List.count_cons]
  · intro hs
    obtain ⟨⟨s, d, r, rd⟩, cfg, ta, tta, p, log⟩ := w
    simp only [retries_lt_int]
    rw [pushTimerCb_cycle, pushSwitch_mqtt K env _ hs, mqttPush_eq]
    simp only [World.emit, World.setState, PUSH_MQTTWAIT, PUSH_FINISH]
    split_ifs <;> simp_all
set_option maxRecDepth 1000000 in
/-- C13, an instance with `PUSH_RETRIES_MAX = 3`: from HttpSend with
retryCount 1 the tick moves to HttpBackoff, with retryCount 2 to MqttSetup;
from MqttSend with retryCount 2 it moves to Finish. -/
theorem send_state_transition_witness :
    (pushTimerCb quickConsts envGood
        { bootWorld with cycle := PushCycle.mk PUSH_HTTP 0 1 0 }).cycle.pushState
      = PUSH_HTTPWAIT ∧
    (pushTimerCb quickConsts envGood
        { bootWorld with cycle := PushCycle.mk PUSH_HTTP 0 2 0 }).cycle.pushState
      = PUSH_MQTTSTART ∧
    (pushTimerCb quickConsts envGood
        { bootWorld with cycle := PushCycle.mk PUSH_MQTT 0 2 0 }).cycle.pushState
      = PUSH_FINISH :=
  ⟨((send_state_transition quickConsts envGood
      { bootWorld with cycle := PushCycle.mk PUSH_HTTP 0 1 0 }).1 rfl).2.1.mpr (by decide),
   ((send_state_transition quickConsts envGood
      { bootWorld with cycle := PushCycle.mk PUSH_HTTP 0 2 0 }).1 rfl).2.2.1.mpr (by decide),
   ((send_state_transition quickConsts envGood
      { bootWorld with cycle := PushCycle.mk PUSH_MQTT 0 2 0 }).2.2.1 rfl).2.1.mpr (by decide)⟩
/-! ### C14: the fallback of a redirect -/

theorem httpPushCb_redirect_found (K : Consts) (accept : Bool) (http_status : Int)
    (full tmp : List Char) (w : World) (hst : http_status = 301 ∨ http_status = 302)
    (hbudget : u8 (w.cycle.pushRedirect + 255) ≠ 0)
    (hfound : os_strstr full "Location: ".toList = some tmp) :
    httpPushCb K accept http_status full w =
      if accept = true then
        { w with
          cycle := { w.cycle with pushRedirect := u8 (w.cycle.pushRedirect + 255) }
          httpOutstanding := w.httpOutstanding + 1
          log := Effect.http_get ((strtok (tmp.drop 10) "\r\n".toList).take 255) true :: w.log }
      else
        { w with
          cycle :=
            { pushState := w.cycle.pushState
              pushErrorDelay := u8 (K.PUSH_ERROR_DELAY + 1)
              pushRetries := u8 (w.cycle.pushRetries + 1)
              pushRedirect := u8 (w.cycle.pushRedirect + 255) }
          log := Effect.http_get ((strtok (tmp.drop 10) "\r\n".toList).take 255) false :: w.log } := by
  have h200 : http_status ≠ 200 := by omega
  unfold httpPushCb
  simp only [if_neg h200, if_pos hst, if_neg hbudget, hfound, http_get]
  cases accept <;> simp

theorem strtok_line (c : Char) (url rest : List Char)
    (hurl : ∀ x ∈ c :: url, x ≠ '\r' ∧ x ≠ '\n')
    (hrest : ∀ x ∈ rest.head?, x = '\r' ∨ x = '\n') :
    strtok (c :: url ++ rest) "\r\n".toList = c :: url := by
  rw [strtok_token "\r\n".toList c url rest (fun x hx => by
    have := hurl x hx
    simp [this.1, this.2])]
  cases rest with
  | nil => simp
  | cons x rest =>
    have hx := hrest x (by simp)
    have hc : "\r\n".toList.contains x = true := by
      rcases hx with h | h <;> simp [h]
    simp only [List.takeWhile_cons, hc]
    simp

/-- C14: for a 301/302 response received with redirect budget remaining after
the decrement.  Without `Location: ` in the response, or when the transport
rejects the follow-up request, the state is unchanged, errorDelayTicks becomes
`PUSH_ERROR_DELAY + 1` and retryCount is incremented by one (as `uint8_t`
values: exactly so whenever these are below 256).  When the first `Location: `
is followed by a line `loc` and the transport accepts the follow-up request,
the state, retryCount and errorDelayTicks are unchanged and exactly one
request is recorded, for the first 255 characters of `loc`; it is handed to
`http_get` with `httpPushCb`, so one more response is outstanding. -/
theorem redirect_fallback (K : Consts) (accept : Bool) (http_status : Int) (full : List Char)
    (w : World) (hst : http_status = 301 ∨ http_status = 302)
    (hbudget : u8 (w.cycle.pushRedirect + 255) ≠ 0) :
    (¬ "Location: ".toList <:+: full →
      httpPushCb K accept http_status full w =
        { w with cycle :=
            { pushState := w.cycle.pushState
              pushErrorDelay := u8 (K.PUSH_ERROR_DELAY + 1)
              pushRetries := u8 (w.cycle.pushRetries + 1)
              pushRedirect := u8 (w.cycle.pushRedirect + 255) } }) ∧
    (∀ (pre : List Char) (c : Char) (loc rest : List Char),
      full = pre ++ "Location: ".toList ++ (c :: loc ++ rest) →
      (∀ a b : List Char, full = a ++ "Location: ".toList ++ b → pre.length ≤ a.length) →
      (∀ x ∈ c :: loc, x ≠ '\r' ∧ x ≠ '\n') →
      (∀ x ∈ rest.head?, x = '\r' ∨ x = '\n') →
      (accept = false →
        httpPushCb K accept http_status full w =
          { w with
            cycle :=
              { pushState := w.cycle.pushState
                pushErrorDelay := u8 (K.PUSH_ERROR_DELAY + 1)
                pushRetries := u8 (w.cycle.pushRetries + 1)
                pushRedirect := u8 (w.cycle.pushRedirect + 255) }
            log := Effect.http_get ((c :: loc).take 255) false :: w.log }) ∧
      (accept = true →
        httpPushCb K accept http_status full w =
          { w with
            cycle := { w.cycle with pushRedirect := u8 (w.cycle.pushRedirect + 255) }
            httpOutstanding := w.httpOutstanding + 1
            log := Effect.http_get ((c :: loc).take 255) true :: w.log })) ∧
    (K.PUSH_ERROR_DELAY + 1 < 256 → u8 (K.PUSH_ERROR_DELAY + 1) = K.PUSH_ERROR_DELAY + 1) ∧
    (w.cycle.pushRetries + 1 < 256 → u8 (w.cycle.pushRetries + 1) = w.cycle.pushRetries + 1) := by
  have h200 : http_status ≠ 200 := by omega
  refine ⟨?_, ?_, fun h => Nat.mod_eq_of_lt h, fun h => Nat.mod_eq_of_lt h⟩
  · intro hno
    unfold httpPushCb
    simp only [if_neg h200, if_pos hst, if_neg hbudget, os_strstr_none _ full hno]
  · intro pre c loc rest hfull hfirst hloc hrest
    have hs : os_strstr full "Location: ".toList
        = some ("Location: ".toList ++ (c :: loc ++ rest)) := by
      rw [hfull]
      exact os_strstr_first _ _ pre (fun a b hab => hfirst a b (by rw [hfull]; exact hab))
    have hdrop : ("Location: ".toList ++ (c :: loc ++ rest)).drop 10 = c :: loc ++ rest :=
      List.drop_left "Location: ".toList (c :: loc ++ rest)
    have hmain := httpPushCb_redirect_found K accept http_status full _ w hst hbudget hs
    rw [hdrop, strtok_line c loc rest hloc hrest] at hmain
    refine ⟨?_, ?_⟩
    · intro ha
      rw [hmain, ha]
      simp
    · intro ha
      rw [hmain, if_pos ha]

set_option maxRecDepth 1000000 in
/-- C14, an instance: budget 3, a 302 response with
`Location: http://b.example/2`, accepted and rejected. -/
theorem redirect_fallback_witness :
    httpPushCb exampleConsts true 302
        "HTTP/1.1 302 Found\r\nLocation: http://b.example/2\r\nContent-Length: 0\r\n\r\n".toList
        { bootWorld with cycle := PushCycle.mk PUSH_HTTPWAIT 0 1 3, httpOutstanding := 0 } =
      { bootWorld with
        cycle := PushCycle.mk PUSH_HTTPWAIT 0 1 2
        httpOutstanding := 1
        log := [Effect.http_get "http://b.example/2".toList true] } ∧
    httpPushCb exampleConsts false 302
        "HTTP/1.1 302 Found\r\nLocation: http://b.example/2\r\nContent-Length: 0\r\n\r\n".toList
        { bootWorld with cycle := PushCycle.mk PUSH_HTTPWAIT 0 1 3, httpOutstanding := 0 } =
      { bootWorld with
        cycle := PushCycle.mk PUSH_HTTPWAIT 3 2 2
        httpOutstanding := 0
        log := [Effect.http_get "http://b.example/2".toList false] } :=
  ⟨((redirect_fallback exampleConsts true 302 _
      { bootWorld with cycle := PushCycle.mk PUSH_HTTPWAIT 0 1 3, httpOutstanding := 0 }
      (by decide) (by decide)).2.1
      "HTTP/1.1 302 Found\r\n".toList 'h' "ttp://b.example/2".toList
      "\r\nContent-Length: 0\r\n\r\n".toList rfl
      (first_occurrence_of_take _ _ 20 (by decide)) (by decide) (by decide)).2 rfl,
   ((redirect_fallback exampleConsts false 302 _
      { bootWorld with cycle := PushCycle.mk PUSH_HTTPWAIT 0 1 3, httpOutstanding := 0 }
      (by decide) (by decide)).2.1
      "HTTP/1.1 302 Found\r\n".toList 'h' "ttp://b.example/2".toList
      "\r\nContent-Length: 0\r\n\r\n".toList rfl
      (first_occurrence_of_take _ _ 20 (by decide)) (by decide) (by decide)).1 rfl⟩
/-! ### C15: the countdown in the backoff states -/

theorem backoff_tick_http (K : Consts) (env : TickEnv) (w : World)
    (hs : w.cycle.pushState = PUSH_HTTPWAIT) (hn : w.cycle.pushErrorDelay < 256) :
    (pushTimerCb K env w).cycle =
      if w.cycle.pushErrorDelay = 0 then w.cycle
      else
        { w.cycle with
          pushErrorDelay := w.cycle.pushErrorDelay - 1
          pushState := if w.cycle.pushErrorDelay = 1 then PUSH_HTTP else PUSH_HTTPWAIT } := by
  rw [pushTimerCb_cycle, pushSwitch_httpwait K env w hs]
  by_cases h0 : w.cycle.pushErrorDelay = 0
  · have hgt : ¬ w.cycle.pushErrorDelay > 0 := by omega
    rw [if_neg hgt, if_pos h0]
  · have hgt : w.cycle.pushErrorDelay > 0 := by omega
    have hu : u8 (w.cycle.pushErrorDelay + 255) = w.cycle.pushErrorDelay - 1 := by
      unfold u8
      omega
    rw [if_pos hgt, if_neg h0, hu]
    by_cases h1 : w.cycle.pushErrorDelay = 1
    · have hz : w.cycle.pushErrorDelay - 1 = 0 := by omega
      rw [if_pos hz, if_pos h1]
      rfl
    · have hz : ¬ w.cycle.pushErrorDelay - 1 = 0 := by omega
      rw [if_neg hz, if_neg h1]
      simp only [World.emit]
      rw [← hs]

theorem backoff_tick_mqtt (K : Consts) (env : TickEnv) (w : World)
    (hs : w.cycle.pushState = PUSH_MQTTWAIT) (hn : w.cycle.pushErrorDelay < 256) :
    (pushTimerCb K env w).cycle =
      if w.cycle.pushErrorDelay = 0 then w.cycle
      else
        { w.cycle with
          pushErrorDelay := w.cycle.pushErrorDelay - 1
          pushState := if w.cycle.pushErrorDelay = 1 then PUSH_MQTT else PUSH_MQTTWAIT } := by
  rw [pushTimerCb_cycle, pushSwitch_mqttwait K env w hs]
  by_cases h0 : w.cycle.pushErrorDelay = 0
  · have hgt : ¬ w.cycle.pushErrorDelay > 0 := by omega
    rw [if_neg hgt, if_pos h0]
  · have hgt : w.cycle.pushErrorDelay > 0 := by omega
    have hu : u8 (w.cycle.pushErrorDelay + 255) = w.cycle.pushErrorDelay - 1 := by
      unfold u8
      omega
    rw [if_pos hgt, if_neg h0, hu]
    by_cases h1 : w.cycle.pushErrorDelay = 1
    · have hz : w.cycle.pushErrorDelay - 1 = 0 := by omega
      rw [if_pos hz, if_pos h1]
      rfl
    · have hz : ¬ w.cycle.pushErrorDelay - 1 = 0 := by omega
      rw [if_neg hz, if_neg h1]
      simp only [World.emit]
      rw [← hs]

theorem ticks_backoff (K : Consts) (wait send : Nat)
    (htick : ∀ (env : TickEnv) (w : World), w.cycle.pushState = wait →
      w.cycle.pushErrorDelay < 256 →
      (pushTimerCb K env w).cycle =
        if w.cycle.pushErrorDelay = 0 then w.cycle
        else
          { w.cycle with
            pushErrorDelay := w.cycle.pushErrorDelay - 1
            pushState := if w.cycle.pushErrorDelay = 1 then send else wait }) :
    ∀ (envs : List TickEnv) (w : World), w.cycle.pushState = wait →
      w.cycle.pushErrorDelay < 256 → 1 ≤ w.cycle.pushErrorDelay →
      envs.length ≤ w.cycle.pushErrorDelay →
      (ticks K w envs).cycle =
        { w.cycle with
          pushErrorDelay := w.cycle.pushErrorDelay - envs.length
          pushState := if envs.length = w.cycle.pushErrorDelay then send else wait } := by
  intro envs
  induction envs with
  | nil =>
    intro w hs _ h1 _
    have hne : ¬ (0 = w.cycle.pushErrorDelay) := by omega
    simp only [ticks, List.length_nil, Nat.sub_zero, if_neg hne]
    rw [← hs]
  | cons env envs ih =>
    intro w hs hn h1 hlen
    have hstep := htick env w hs hn
    have h0 : ¬ w.cycle.pushErrorDelay = 0 := by omega
    rw [if_neg h0] at hstep
    simp only [List.length_cons] at hlen ⊢
    simp only [ticks]
    by_cases hd1 : w.cycle.pushErrorDelay = 1
    · have hnil : envs = [] := List.eq_nil_of_length_eq_zero (by omega)
      subst hnil
      simp only [ticks, List.length_nil]
      rw [hstep, if_pos hd1, if_pos (by omega)]
    · rw [if_neg hd1] at hstep
      have hs1 : (pushTimerCb K env w).cycle.pushState = wait := by rw [hstep]
      have hd : (pushTimerCb K env w).cycle.pushErrorDelay = w.cycle.pushErrorDelay - 1 := by
        rw [hstep]
      have := ih (pushTimerCb K env w) hs1 (by rw [hd]; omega) (by rw [hd]; omega)
        (by rw [hd]; omega)
      rw [this, hstep]
      have e1 : w.cycle.pushErrorDelay - 1 - envs.length
          = w.cycle.pushErrorDelay - (envs.length + 1) := by omega
      have e2 : (envs.length = w.cycle.pushErrorDelay - 1)
          ↔ (envs.length + 1 = w.cycle.pushErrorDelay) := by omega
      simp only [e1, e2]

/-- C15: a tick in HttpBackoff with errorDelayTicks 0 leaves the push cycle
unchanged; with errorDelayTicks n > 0 (a `uint8_t` value) it makes it n - 1,
and the state becomes HttpSend exactly when n = 1 and stays HttpBackoff
otherwise; retryCount and redirectsRemaining are untouched.  Hence from
errorDelayTicks n ≥ 1 the state is HttpBackoff after each of the first n - 1
ticks and HttpSend after the n-th; in particular, after a failure callback
has armed `PUSH_ERROR_DELAY + 1` (below 256), HttpSend is entered again after
exactly `PUSH_ERROR_DELAY + 1` ticks, with the retryCount the callback left.
The same holds for MqttBackoff, MqttSend and the MQTT on-timeout callback. -/
theorem backoff_countdown (K : Consts) (w : World) (hn : w.cycle.pushErrorDelay < 256) :
    (w.cycle.pushState = PUSH_HTTPWAIT →
      (∀ env : TickEnv, (pushTimerCb K env w).cycle =
        if w.cycle.pushErrorDelay = 0 then w.cycle
        else
          { w.cycle with
            pushErrorDelay := w.cycle.pushErrorDelay - 1
            pushState := if w.cycle.pushErrorDelay = 1 then PUSH_HTTP else PUSH_HTTPWAIT }) ∧
      (∀ envs : List TickEnv, 1 ≤ w.cycle.pushErrorDelay →
        envs.length ≤ w.cycle.pushErrorDelay →
        (ticks K w envs).cycle =
          { w.cycle with
            pushErrorDelay := w.cycle.pushErrorDelay - envs.length
            pushState :=
              if envs.length = w.cycle.pushErrorDelay then PUSH_HTTP else PUSH_HTTPWAIT }) ∧
      (∀ (accept : Bool) (http_status : Int) (full : List Char) (envs : List TickEnv),
        http_status ≠ 200 → http_status ≠ 301 → http_status ≠ 302 →
        K.PUSH_ERROR_DELAY + 1 < 256 → envs.length ≤ K.PUSH_ERROR_DELAY + 1 →
        (ticks K (httpPushCb K accept http_status full w) envs).cycle =
          { pushState :=
              if envs.length = K.PUSH_ERROR_DELAY + 1 then PUSH_HTTP else PUSH_HTTPWAIT
            pushErrorDelay := K.PUSH_ERROR_DELAY + 1 - envs.length
            pushRetries := u8 (w.cycle.pushRetries + 1)
            pushRedirect := w.cycle.pushRedirect })) ∧
    (w.cycle.pushState = PUSH_MQTTWAIT →
      (∀ env : TickEnv, (pushTimerCb K env w).cycle =
        if w.cycle.pushErrorDelay = 0 then w.cycle
        else
          { w.cycle with
            pushErrorDelay := w.cycle.pushErrorDelay - 1
            pushState := if w.cycle.pushErrorDelay = 1 then PUSH_MQTT else PUSH_MQTTWAIT }) ∧
      (∀ envs : List TickEnv, 1 ≤ w.cycle.pushErrorDelay →
        envs.length ≤ w.cycle.pushErrorDelay →
        (ticks K w envs).cycle =
          { w.cycle with
            pushErrorDelay := w.cycle.pushErrorDelay - envs.length
            pushState :=
              if envs.length = w.cycle.pushErrorDelay then PUSH_MQTT else PUSH_MQTTWAIT }) ∧
      (∀ envs : List TickEnv,
        K.PUSH_ERROR_DELAY + 1 < 256 → envs.length ≤ K.PUSH_ERROR_DELAY + 1 →
        (ticks K (mqttErrorCb K w) envs).cycle =
          { pushState :=
              if envs.length = K.PUSH_ERROR_DELAY + 1 then PUSH_MQTT else PUSH_MQTTWAIT
            pushErrorDelay := K.PUSH_ERROR_DELAY + 1 - envs.length
            pushRetries := u8 (w.cycle.pushRetries + 1)
            pushRedirect := w.cycle.pushRedirect })) := by
  refine ⟨?_, ?_⟩
  · intro hs
    refine ⟨fun env => backoff_tick_http K env w hs hn,
      fun envs h1 hlen =>
        ticks_backoff K PUSH_HTTPWAIT PUSH_HTTP (backoff_tick_http K) envs w hs hn h1 hlen, ?_⟩
    intro accept st full envs h200 h301 h302 hD hlen
    have hu : u8 (K.PUSH_ERROR_DELAY + 1) = K.PUSH_ERROR_DELAY + 1 := Nat.mod_eq_of_lt hD
    have hcb := httpPushCb_failure K accept st full w h200 h301 h302
    have hc : (httpPushCb K accept st full w).cycle =
        { pushState := PUSH_HTTPWAIT, pushErrorDelay := K.PUSH_ERROR_DELAY + 1,
          pushRetries := u8 (w.cycle.pushRetries + 1), pushRedirect := w.cycle.pushRedirect } := by
      rw [hcb, hu]
      simp only [hs]
    have := ticks_backoff K PUSH_HTTPWAIT PUSH_HTTP (backoff_tick_http K) envs
      (httpPushCb K accept st full w) (by rw [hc]) (by rw [hc]; exact hD) (by rw [hc]; show 1 ≤ K.PUSH_ERROR_DELAY + 1; omega)
      (by rw [hc]; exact hlen)
    rw [this, hc]
  · intro hs
    refine ⟨fun env => backoff_tick_mqtt K env w hs hn,
      fun envs h1 hlen =>
        ticks_backoff K PUSH_MQTTWAIT PUSH_MQTT (backoff_tick_mqtt K) envs w hs hn h1 hlen, ?_⟩
    intro envs hD hlen
    have hu : u8 (K.PUSH_ERROR_DELAY + 1) = K.PUSH_ERROR_DELAY + 1 := Nat.mod_eq_of_lt hD
    have hc : (mqttErrorCb K w).cycle =
        { pushState := PUSH_MQTTWAIT, pushErrorDelay := K.PUSH_ERROR_DELAY + 1,
          pushRetries := u8 (w.cycle.pushRetries + 1), pushRedirect := w.cycle.pushRedirect } := by
      show PushCycle.mk w.cycle.pushState (u8 (K.PUSH_ERROR_DELAY + 1))
        (u8 (w.cycle.pushRetries + 1)) w.cycle.pushRedirect = _
      rw [hu, hs]
    have := ticks_backoff K PUSH_MQTTWAIT PUSH_MQTT (backoff_tick_mqtt K) envs
      (mqttErrorCb K w) (by rw [hc]) (by rw [hc]; exact hD) (by rw [hc]; show 1 ≤ K.PUSH_ERROR_DELAY + 1; omega)
      (by rw [hc]; exact hlen)
    rw [this, hc]

set_option maxRecDepth 1000000 in
/-- C15, an instance with `PUSH_ERROR_DELAY = 2`: after the response with
status 500 in HttpBackoff, two ticks leave the state in HttpBackoff and the
third re-enters HttpSend, with retryCount 1 throughout. -/
theorem backoff_countdown_witness :
    (ticks exampleConsts
        (httpPushCb exampleConsts true 500 "HTTP/1.1 500 Internal Server Error\r\n\r\n".toList
          (bootWorld.setState PUSH_HTTPWAIT))
        [envGood, envGood]).cycle = PushCycle.mk PUSH_HTTPWAIT 1 1 0 ∧
    (ticks exampleConsts
        (httpPushCb exampleConsts true 500 "HTTP/1.1 500 Internal Server Error\r\n\r\n".toList
          (bootWorld.setState PUSH_HTTPWAIT))
        [envGood, envGood, envGood]).cycle = PushCycle.mk PUSH_HTTP 0 1 0 :=
  ⟨((backoff_countdown exampleConsts (bootWorld.setState PUSH_HTTPWAIT) (by decide)).1 rfl).2.2
      true 500 _ [envGood, envGood] (by decide) (by decide) (by decide) (by decide) (by decide),
   ((backoff_countdown exampleConsts (bootWorld.setState PUSH_HTTPWAIT) (by decide)).1 rfl).2.2
      true 500 _ [envGood, envGood, envGood] (by decide) (by decide) (by decide) (by decide)
      (by decide)⟩
/-! ### C16: the tick in Finish -/

theorem pushTimerCb_finish (K : Consts) (env : TickEnv) (w : World)
    (hs : w.cycle.pushState = PUSH_FINISH) :
    pushTimerCb K env w =
      if env.configIsFirstStart = true then
        ((w.emit (Effect.statusLed Led.LED_OFF)).emit
          (Effect.statusLed Led.LED_FLASH4)).setState PUSH_IDLE
      else (sleepmode (w.emit (Effect.statusLed Led.LED_OFF))).setState PUSH_IDLE := by
  unfold pushTimerCb
  rw [pushSwitch_finish K env w hs]
  by_cases hf : env.configIsFirstStart = true
  · simp [hf, World.setState, PUSH_IDLE]
  · simp [hf, World.setState, PUSH_IDLE]

/-- C16: a tick in Finish sets the state to Idle and does not call
`pushTimer` (the poll timer, disarmed by its expiry, stays disarmed); when
`configIsFirstStart()` is false it records the status LED off and then exactly
one `system_deep_sleep` for the configured interval, and when it is true it
records the two status LED calls and no sleep.  The three counters are
unchanged. -/
theorem finish_tick (K : Consts) (env : TickEnv) (w : World)
    (hs : w.cycle.pushState = PUSH_FINISH) :
    (pushTimerCb K env w).cycle = { w.cycle with pushState := PUSH_IDLE } ∧
    (pushTimerCb K env w).pushTimerArmed = w.pushTimerArmed ∧
    (∃ w1, step K w (Event.tick env) = some w1 ∧
      (w.pushTimerArmed = true → w1.pushTimerArmed = false ∧
        w1.cycle.pushState = PUSH_IDLE)) ∧
    (env.configIsFirstStart = false →
      (pushTimerCb K env w).log =
        Effect.system_deep_sleep (deepSleepTime w.config.sensor_interval) ::
          Effect.statusLed Led.LED_OFF :: w.log ∧
      (pushTimerCb K env w).sleeps = w.sleeps + 1) ∧
    (env.configIsFirstStart = true →
      (pushTimerCb K env w).log =
        Effect.statusLed Led.LED_FLASH4 :: Effect.statusLed Led.LED_OFF :: w.log ∧
      (pushTimerCb K env w).sleeps = w.sleeps) := by
  have hmain := pushTimerCb_finish K env w hs
  have hmain2 := pushTimerCb_finish K env { w with pushTimerArmed := false } hs
  refine ⟨?_, ?_, ?_, ?_, ?_⟩
  · rw [hmain]; split_ifs <;> rfl
  · rw [hmain]; split_ifs <;> rfl
  · refine ⟨_, rfl, ?_⟩
    intro harm
    simp only [harm, if_true]
    rw [hmain2]
    split_ifs <;> exact ⟨rfl, rfl⟩
  · intro hf
    rw [hmain]
    simp [hf, sleepmode_eq, World.emit, World.setState, World.sleeps, List.countP_cons,
      Effect.isSleep]
  · intro hf
    rw [hmain]
    simp [hf, World.emit, World.setState, World.sleeps, List.countP_cons, Effect.isSleep]

set_option maxRecDepth 1000000 in
/-- C16, an instance: the tick in Finish with the first start over sleeps for
the 600 seconds configured; in the first start it does not. -/
theorem finish_tick_witness :
    (pushTimerCb exampleConsts envGood (bootWorld.setState PUSH_FINISH)).log =
      [Effect.system_deep_sleep 600000000, Effect.statusLed Led.LED_OFF] ∧
    (pushTimerCb exampleConsts { envGood with configIsFirstStart := true }
        (bootWorld.setState PUSH_FINISH)).log =
      [Effect.statusLed Led.LED_FLASH4, Effect.statusLed Led.LED_OFF] ∧
    (pushTimerCb exampleConsts envGood (bootWorld.setState PUSH_FINISH)).cycle
      = PushCycle.mk PUSH_IDLE 0 0 0 :=
  ⟨((finish_tick exampleConsts envGood (bootWorld.setState PUSH_FINISH) rfl).2.2.2.1 rfl).1,
   ((finish_tick exampleConsts { envGood with configIsFirstStart := true }
      (bootWorld.setState PUSH_FINISH) rfl).2.2.2.2 rfl).1,
   (finish_tick exampleConsts envGood (bootWorld.setState PUSH_FINISH) rfl).1⟩
/-! ### C17: the tick in Init -/

theorem pushTimerCb_idle (K : Consts) (env : TickEnv) (w : World)
    (hs : w.cycle.pushState = PUSH_IDLE) : pushTimerCb K env w = w := by
  unfold pushTimerCb
  rw [pushSwitch_idle K env w hs]
  have : ¬ w.cycle.pushState > PUSH_IDLE := by rw [hs]; exact Nat.lt_irrefl _
  simp only [this, if_false]

theorem ticks_idle (K : Consts) :
    ∀ (envs : List TickEnv) (w : World), w.cycle.pushState = PUSH_IDLE →
      ticks K w envs = w := by
  intro envs
  induction envs with
  | nil => intro w _; rfl
  | cons env envs ih =>
    intro w hs
    simp only [ticks]
    rw [pushTimerCb_idle K env w hs]
    exact ih w hs

theorem pushTimerCb_init (K : Consts) (env : TickEnv) (w : World)
    (hs : w.cycle.pushState = PUSH_INIT) :
    (pushTimerCb K env w).cycle =
      (if w.config.http_enabled = 0 ∧ w.config.mqtt_enabled = 0 then
        { w.cycle with pushState := PUSH_FINISH }
      else { w.cycle with pushRetries := 0, pushState := PUSH_READ }) ∧
    (pushTimerCb K env w).log =
      (if w.config.http_enabled = 0 ∧ w.config.mqtt_enabled = 0 then w.log
      else Effect.statusLed Led.LED_FLASH1 :: w.log) ∧
    (pushTimerCb K env w).config = w.config := by
  rw [pushTimerCb_cycle, pushTimerCb_log, pushTimerCb_config, pushSwitch_init K env w hs]
  split_ifs <;> exact ⟨rfl, rfl, rfl⟩

theorem ticks_init_disabled (K : Consts) (w : World) (hs : w.cycle.pushState = PUSH_INIT)
    (hd : w.config.http_enabled = 0 ∧ w.config.mqtt_enabled = 0) :
    ∀ envs : List TickEnv,
      (ticks K w envs).sensorReads = w.sensorReads ∧
      ((ticks K w envs).cycle.pushState = PUSH_INIT ∨
        (ticks K w envs).cycle.pushState = PUSH_FINISH ∨
        (ticks K w envs).cycle.pushState = PUSH_IDLE) := by
  intro envs
  cases envs with
  | nil => exact ⟨rfl, Or.inl hs⟩
  | cons e1 envs =>
    obtain ⟨hc1, hl1, _⟩ := pushTimerCb_init K e1 w hs
    rw [if_pos hd] at hc1 hl1
    have hs1 : (pushTimerCb K e1 w).cycle.pushState = PUSH_FINISH := by rw [hc1]
    cases envs with
    | nil =>
      simp only [ticks]
      exact ⟨by unfold World.sensorReads; rw [hl1], Or.inr (Or.inl hs1)⟩
    | cons e2 envs =>
      simp only [ticks]
      have h2 := pushTimerCb_finish K e2 (pushTimerCb K e1 w) hs1
      have hs2 : (pushTimerCb K e2 (pushTimerCb K e1 w)).cycle.pushState = PUSH_IDLE := by
        rw [h2]; split_ifs <;> rfl
      have hl2 : (pushTimerCb K e2 (pushTimerCb K e1 w)).sensorReads = w.sensorReads := by
        rw [h2]
        unfold World.sensorReads
        split_ifs <;>
          simp [sleepmode_eq, World.emit, World.setState, hl1, List.countP_cons]
      rw [ticks_idle K envs _ hs2]
      exact ⟨hl2, Or.inr (Or.inr hs2)⟩

/-- C17: a tick in Init moves to Finish exactly when `http_enabled` and
`mqtt_enabled` are both 0, and then it changes nothing but the state
(retryCount untouched, nothing recorded); however many ticks follow, the state
is only ever Init, Finish or Idle and no sensor read is recorded.  Otherwise
the tick sets retryCount to 0 and moves to ReadSensors. -/
theorem init_tick (K : Consts) (env : TickEnv) (w : World)
    (hs : w.cycle.pushState = PUSH_INIT) :
    ((pushTimerCb K env w).cycle.pushState = PUSH_FINISH ↔
      (w.config.http_enabled = 0 ∧ w.config.mqtt_enabled = 0)) ∧
    ((w.config.http_enabled = 0 ∧ w.config.mqtt_enabled = 0) →
      (pushTimerCb K env w).cycle = { w.cycle with pushState := PUSH_FINISH } ∧
      (pushTimerCb K env w).log = w.log ∧
      ∀ envs : List TickEnv,
        (ticks K w envs).sensorReads = w.sensorReads ∧
        ((ticks K w envs).cycle.pushState = PUSH_INIT ∨
          (ticks K w envs).cycle.pushState = PUSH_FINISH ∨
          (ticks K w envs).cycle.pushState = PUSH_IDLE)) ∧
    (¬ (w.config.http_enabled = 0 ∧ w.config.mqtt_enabled = 0) →
      (pushTimerCb K env w).cycle =
        { w.cycle with pushRetries := 0, pushState := PUSH_READ }) := by
  obtain ⟨hc, hl, _⟩ := pushTimerCb_init K env w hs
  refine ⟨?_, ?_, ?_⟩
  · rw [hc]
    split_ifs with h
    · exact ⟨fun _ => h, fun _ => rfl⟩
    · exact ⟨fun h2 => absurd h2 (show ¬ PUSH_READ = PUSH_FINISH by decide),
        fun h2 => absurd h2 h⟩
  · intro hd
    rw [if_pos hd] at hc hl
    exact ⟨hc, hl, ticks_init_disabled K w hs hd⟩
  · intro hd
    rw [if_neg hd] at hc
    exact hc

set_option maxRecDepth 1000000 in
/-- C17, an instance: with both transports disabled the tick in Init moves to
Finish and keeps retryCount 4; with MQTT enabled it moves to ReadSensors and
clears retryCount. -/
theorem init_tick_witness :
    (pushTimerCb exampleConsts envGood
        { bootWorld with
          cycle := PushCycle.mk PUSH_INIT 0 4 0
          config := { exampleConfig with http_enabled := 0, mqtt_enabled := 0 } }).cycle
      = PushCycle.mk PUSH_FINISH 0 4 0 ∧
    (pushTimerCb exampleConsts envGood
        { bootWorld with
          cycle := PushCycle.mk PUSH_INIT 0 4 0
          config := { exampleConfig with http_enabled := 0, mqtt_enabled := 1 } }).cycle
      = PushCycle.mk PUSH_READ 0 0 0 :=
  ⟨((init_tick exampleConsts envGood
      { bootWorld with
        cycle := PushCycle.mk PUSH_INIT 0 4 0
        config := { exampleConfig with http_enabled := 0, mqtt_enabled := 0 } } rfl).2.1
      (by decide)).1,
   (init_tick exampleConsts envGood
      { bootWorld with
        cycle := PushCycle.mk PUSH_INIT 0 4 0
        config := { exampleConfig with http_enabled := 0, mqtt_enabled := 1 } } rfl).2.2
      (by decide)⟩
/-! ### C18: re-arming of the poll timer -/

theorem pushSwitch_pushTimerArmed (K : Consts) (env : TickEnv) (w : World) :
    (pushSwitch K env w).pushTimerArmed = w.pushTimerArmed := by
  have hcases := pushState_cases w.cycle.pushState
  rcases hcases with h | h | h | h | h | h | h | h | h | h | h | h
  · rw [pushSwitch_idle K env w h]
  · rw [pushSwitch_init K env w h]; split_ifs <;> rfl
  · rw [pushSwitch_read K env w h]; split_ifs <;> rfl
  · rw [pushSwitch_ipwait K env w h]; split_ifs <;> rfl
  · rw [pushSwitch_httpstart K env w h]; rfl
  · rw [pushSwitch_http K env w h, httpPush_eq]
    simp only [World.emit, World.setState, http_get]
    split_ifs <;> simp_all
  · rw [pushSwitch_httpwait K env w h]; split_ifs <;> rfl
  · rw [pushSwitch_mqttstart K env w h]; rfl
  · rw [pushSwitch_mqtt K env w h, mqttPush_eq]
    simp only [World.emit, World.setState]
    split_ifs <;> simp_all
  · rw [pushSwitch_mqttwait K env w h]; split_ifs <;> rfl
  · rw [pushSwitch_finish K env w h]; split_ifs <;> rfl
  · rw [pushSwitch_default K env w h]; rfl

theorem pushTimerCb_rearm (K : Consts) (env : TickEnv) (w : World)
    (hoff : w.pushTimerArmed = false) :
    ((pushTimerCb K env w).pushTimerArmed = true ↔
      (pushTimerCb K env w).cycle.pushState ≠ PUSH_IDLE) := by
  have harm := pushSwitch_pushTimerArmed K env w
  rw [hoff] at harm
  unfold pushTimerCb pushTimer
  simp only []
  split_ifs with h
  · simp only [true_iff]
    exact Nat.ne_of_gt h
  · simp only [harm, Bool.false_eq_true, false_iff, not_not]
    simp only [PUSH_IDLE] at h ⊢
    omega

theorem run_ticks_disarmed (K : Consts) :
    ∀ (envs : List TickEnv) (w : World), w.pushTimerArmed = false →
      run K w (envs.map Event.tick) = some w := by
  intro envs
  induction envs with
  | nil => intro w _; rfl
  | cons env envs ih =>
    intro w hoff
    simp only [List.map_cons, run, step, hoff, Bool.false_eq_true, if_false, Option.some_bind]
    exact ih w hoff

/-- C18: when the armed poll timer expires, the tick arms it again if and
only if the state after the tick is not Idle.  A tick in Idle changes nothing
and does not arm the timer, and with the timer disarmed no further tick is
delivered: any sequence of poll events leaves the world as it is. -/
theorem tick_rearm (K : Consts) (env : TickEnv) (w : World) :
    (w.pushTimerArmed = true →
      ∃ w1, step K w (Event.tick env) = some w1 ∧
        (w1.pushTimerArmed = true ↔ w1.cycle.pushState ≠ PUSH_IDLE)) ∧
    (w.cycle.pushState = PUSH_IDLE →
      pushTimerCb K env w = w ∧
      (w.pushTimerArmed = true →
        step K w (Event.tick env) = some { w with pushTimerArmed := false })) ∧
    (w.pushTimerArmed = false →
      ∀ envs : List TickEnv, run K w (envs.map Event.tick) = some w) := by
  refine ⟨?_, ?_, fun hoff envs => run_ticks_disarmed K envs w hoff⟩
  · intro harm
    refine ⟨_, rfl, ?_⟩
    simp only [harm, if_true]
    exact pushTimerCb_rearm K env { w with pushTimerArmed := false } rfl
  · intro hs
    refine ⟨pushTimerCb_idle K env w hs, ?_⟩
    intro harm
    simp only [step, harm, if_true]
    rw [pushTimerCb_idle K env { w with pushTimerArmed := false } hs]

set_option maxRecDepth 1000000 in
/-- C18, an instance: after `pushSensorData` the first tick arms the timer
again (the state is ReadSensors); the tick in Finish leaves it disarmed, and
three more poll events change nothing. -/
theorem tick_rearm_witness :
    (∃ w1, step exampleConsts (pushSensorData exampleConsts bootWorld) (Event.tick envGood)
        = some w1 ∧ (w1.pushTimerArmed = true ↔ w1.cycle.pushState ≠ PUSH_IDLE)) ∧
    (step exampleConsts (pushSensorData exampleConsts bootWorld) (Event.tick envGood)).map
        (fun w => (w.cycle.pushState, w.pushTimerArmed)) = some (PUSH_READ, true) ∧
    (step exampleConsts { bootWorld with
          cycle := PushCycle.mk PUSH_FINISH 0 0 0, pushTimerArmed := true }
        (Event.tick envGood)).map
        (fun w => (w.cycle.pushState, w.pushTimerArmed)) = some (PUSH_IDLE, false) ∧
    run exampleConsts bootWorld ([envGood, envGood, envGood].map Event.tick) = some bootWorld :=
  ⟨(tick_rearm exampleConsts envGood (pushSensorData exampleConsts bootWorld)).1 rfl,
   by decide, by decide,
   (tick_rearm exampleConsts envGood bootWorld).2.2 rfl [envGood, envGood, envGood]⟩
/-! ### C19: the time passed to deep sleep -/

theorem wrapInt32_lt (z : Int) : wrapInt32 z < 2147483648 := by
  unfold wrapInt32
  omega

/-- C19 (what the code does): `sleepmode` records one `system_deep_sleep`
whose argument is the product `interval*1000*1000` wrapped to 32 bit `int`.
For intervals up to 2147 seconds this is the interval in microseconds; for
every interval from 2148 to 21600 seconds, all of which the interval override
can store, the product does not fit and the argument differs from the
interval in microseconds. -/
theorem sleepmode_wraps (w : World) :
    sleepmode w =
      { w with log := Effect.system_deep_sleep (deepSleepTime w.config.sensor_interval) :: w.log } ∧
    (w.config.sensor_interval ≤ 2147 →
      deepSleepTime w.config.sensor_interval = (w.config.sensor_interval : Int) * 1000000) ∧
    (2148 ≤ w.config.sensor_interval → w.config.sensor_interval ≤ 21600 →
      deepSleepTime w.config.sensor_interval ≠ (w.config.sensor_interval : Int) * 1000000) := by
  refine ⟨rfl, deepSleepTime_exact _, ?_⟩
  intro h1 _ heq
  have hlt : deepSleepTime w.config.sensor_interval < 2147483648 := wrapInt32_lt _
  omega

set_option maxRecDepth 1000000 in
/-- C19, at the largest interval the override accepts: a response with
`X-Interval-Override: 21600` stores 21600 seconds, and `sleepmode` then asks
for 125,163,520 microseconds (about 125 seconds), not 21,600,000,000. -/
theorem sleepmode_wraps_witness :
    (httpPushCb exampleConsts true 200
        "HTTP/1.1 200 OK\r\nX-Interval-Override: 21600\r\n\r\n".toList
        (bootWorld.setState PUSH_HTTPWAIT)).config.sensor_interval = 21600 ∧
    (sleepmode (httpPushCb exampleConsts true 200
        "HTTP/1.1 200 OK\r\nX-Interval-Override: 21600\r\n\r\n".toList
        (bootWorld.setState PUSH_HTTPWAIT))).log = [Effect.system_deep_sleep 125163520] ∧
    deepSleepTime 21600 ≠ 21600 * 1000000 :=
  ⟨by decide, by decide,
   (sleepmode_wraps { bootWorld with config := { exampleConfig with sensor_interval := 21600 } }).2.2
    (by decide) (by decide)⟩
/-! ### C20: values of the state in a cycle -/

set_option maxRecDepth 1000000 in
/-- C20 (what the code does): in a cycle in which every HTTP response answers
an accepted request and every MQTT callback belongs to a live session, the
response to the last HTTP attempt can arrive after the MQTT stage has reached
Finish; its `++pushState` gives the value 11, beyond Finish, and the next tick
takes the default branch: the state is reset to Idle, no deep sleep is
requested and the poll timer is not armed again. -/
theorem late_response_passes_finish :
    cycleDisciplined quickConsts (pushSensorData quickConsts bootWorld)
      (lateResponseTrace ++ [Event.tick envGood]) = true ∧
    (run quickConsts (pushSensorData quickConsts bootWorld) lateResponseTrace.dropLast).map
        (fun w => (w.cycle.pushState, w.httpOutstanding)) = some (PUSH_FINISH, 1) ∧
    (run quickConsts (pushSensorData quickConsts bootWorld) lateResponseTrace).map
        (fun w => w.cycle.pushState) = some (PUSH_FINISH + 1) ∧
    (run quickConsts (pushSensorData quickConsts bootWorld)
        (lateResponseTrace ++ [Event.tick envGood])).map
        (fun w => (w.cycle.pushState, w.sleeps, w.pushTimerArmed)) = some (PUSH_IDLE, 0, false) := by
  decide

end EspWeather
